import Mathlib

/-!
Verification development for the `hardware` driver framework.

The definitions below are a shallow embedding of the Python sources:
`base_driver.py` (registry, construction, connection retry, send path),
`serial_driver.py`, `can_driver.py`, `spi_driver.py` (transport framing,
dispatch loops), `actuator_commands_driver.py` and `encoder_driver.py`
(configuration-time schema validation).

Python dictionaries are modelled as insertion-ordered association lists
(`getAssoc` / `setAssoc`), bytes as `List Nat`, message identifiers as
`Option Int` (the registry accepts `None`), and exceptions as `Except`
values.  Transport I/O is abstracted by explicit outcome parameters
(`Nat → Bool` giving the result of the i-th connect or write attempt) and
wall-clock timeouts by fuel, so every definition is executable.
-/

namespace HardwareModel

/-- Python-dict style lookup on an association list (first match wins;
Python dict keys are unique, which `setAssoc` preserves). -/
def getAssoc {α β : Type} [DecidableEq α] : List (α × β) → α → Option β
  | [], _ => none
  | p :: rest, k => if p.1 = k then some p.2 else getAssoc rest k

/-- Python-dict style assignment `d[k] = v`: update in place when the key is
present, append otherwise (insertion order preserved, as in CPython). -/
def setAssoc {α β : Type} [DecidableEq α] : List (α × β) → α → β → List (α × β)
  | [], k, v => [(k, v)]
  | p :: rest, k, v => if p.1 = k then (k, v) :: rest else p :: setAssoc rest k v

theorem getAssoc_setAssoc_self {α β : Type} [DecidableEq α] (l : List (α × β)) (k : α) (v : β) :
    getAssoc (setAssoc l k v) k = some v := by
  induction l with
  | nil => simp [getAssoc, setAssoc]
  | cons p rest ih =>
    by_cases h : p.1 = k
    · simp [setAssoc, h, getAssoc]
    · simp [setAssoc, h, getAssoc, ih]

theorem getAssoc_setAssoc_ne {α β : Type} [DecidableEq α] (l : List (α × β)) (k k' : α) (v : β)
    (h : k' ≠ k) : getAssoc (setAssoc l k v) k' = getAssoc l k' := by
  induction l with
  | nil =>
    simp only [setAssoc, getAssoc]
    rw [if_neg (fun hh => h hh.symm)]
  | cons p rest ih =>
    by_cases hp : p.1 = k
    · simp only [setAssoc, if_pos hp, getAssoc]
      rw [if_neg (fun hh : k = k' => h hh.symm),
        if_neg (fun hh : p.1 = k' => h ((hp.symm.trans hh).symm))]
    · simp only [setAssoc, if_neg hp, getAssoc, ih]

theorem getAssoc_map_const_none {α β γ : Type} [DecidableEq α]
    (l : List (α × β)) (k : α) :
    getAssoc (l.map (fun p => (p.1, (none : Option γ)))) k =
      (getAssoc l k).map (fun _ => (none : Option γ)) := by
  induction l with
  | nil => simp [getAssoc]
  | cons p rest ih =>
    by_cases h : p.1 = k
    · simp [getAssoc, h]
    · simp [getAssoc, h, ih]

theorem any_key_eq_isSome {α β : Type} [DecidableEq α] (l : List (α × β)) (k : α) :
    (l.any fun p => decide (p.1 = k)) = (getAssoc l k).isSome := by
  induction l with
  | nil => simp [getAssoc]
  | cons p rest ih =>
    by_cases h : p.1 = k
    · simp [getAssoc, h]
    · simp [getAssoc, h, ih]

/-- The two legal values of `BaseDriver.operation` (the setter rejects
everything except the strings "send" and "receive"). -/
inductive Operation : Type
  | send
  | receive
deriving DecidableEq, Repr

/-- The exception kinds raised by the sources: `TypeError`, `ValueError`,
`ConnectionError`, `MsgLengthError` (a `ValueError`-like length error), and
`ImportError` (raised when a `from ... import name` requests a name the
module does not define). -/
inductive DriverError : Type
  | typeError (msg : String)
  | valueError (msg : String)
  | connectionError (msg : String)
  | msgLengthError (msg : String)
  | importError (msg : String)
deriving DecidableEq, Repr

/-- One entry of `BaseDriver.instancesInfo` (see `BaseDriver.__store_info`). -/
structure InstanceInfo : Type where
  id : Option Int
  protocol : String
  channel : String
  operation : Operation
  running : Bool
  numOfMsgs : Nat
deriving DecidableEq, Repr

/-- One entry of `BaseDriver.channelsOperationsInfo`: the per-operation
identifier → frame-count maps plus the two aggregate byte counters. -/
structure ChannelInfo : Type where
  receiveCounts : List (Option Int × Nat)
  sendCounts : List (Option Int × Nat)
  receivedInBuffer : Nat
  sentInBuffer : Nat
deriving DecidableEq, Repr

/-- The three class-level registries of `BaseDriver`.  A buffer value of
`none` is Python's `None` ("no data"); `some bytes` is a received payload. -/
structure RegState : Type where
  instancesInfo : List (String × InstanceInfo)
  channelsOperationsInfo : List (String × ChannelInfo)
  receivedMsgsBuffer : List (String × List (Option Int × Option (List Nat)))
deriving DecidableEq, Repr

/-- The per-instance attributes of a constructed driver that the claims
touch (`self.msgName`, `self.operation`, `self.channel`, `self.msgID`,
`self.__isRunning`, `self.__numOfMsgs`, `self.__pending_message`). -/
structure DriverInst : Type where
  name : String
  operation : Operation
  channel : String
  id : Option Int
  running : Bool
  numOfMsgs : Nat
  pending : Option (List Nat)
deriving DecidableEq, Repr

def emptyChannelInfo : ChannelInfo := ⟨[], [], 0, 0⟩

def getOpCounts (ci : ChannelInfo) (op : Operation) : List (Option Int × Nat) :=
  match op with
  | .receive => ci.receiveCounts
  | .send => ci.sendCounts

def setOpCount (ci : ChannelInfo) (op : Operation) (id : Option Int) (n : Nat) : ChannelInfo :=
  match op with
  | .receive => { ci with receiveCounts := setAssoc ci.receiveCounts id n }
  | .send => { ci with sendCounts := setAssoc ci.sendCounts id n }

/-- The frame counter of scope `(channel, send, id)`, read through both maps
(`none` when the channel or the identifier is unknown). -/
def sendCountOf (s : RegState) (chan : String) (id : Option Int) : Option Nat :=
  match getAssoc s.channelsOperationsInfo chan with
  | none => none
  | some ci => getAssoc ci.sendCounts id

/-- The frame counter of scope `(channel, receive, id)`. -/
def receiveCountOf (s : RegState) (chan : String) (id : Option Int) : Option Nat :=
  match getAssoc s.channelsOperationsInfo chan with
  | none => none
  | some ci => getAssoc ci.receiveCounts id

/-- The receive-buffer entry of `(channel, id)`: `none` if the channel or key
is unknown, `some v` with `v` the stored Python value otherwise. -/
def bufferEntryOf (s : RegState) (chan : String) (id : Option Int) :
    Option (Option (List Nat)) :=
  match getAssoc s.receivedMsgsBuffer chan with
  | none => none
  | some buf => getAssoc buf id

/-- `BaseDriver.msgID` setter (base_driver.py:200-227): uniqueness of the
identifier is checked against all registered instances of the same
`(operation, channel)` scope; `None` is admitted only into an empty scope. -/
def msgIDCheck (s : RegState) (op : Operation) (chan : String) (value : Option Int) :
    Except DriverError Unit :=
  let sameOpChan := (s.instancesInfo.map Prod.snd).filter
    (fun info => decide (info.operation = op) && decide (info.channel = chan))
  match value with
  | none =>
    if sameOpChan.isEmpty then .ok ()
    else .error (.valueError
      "Cannot set msgID to None: another instance in this operation and channel already has msgID or msgID=None")
  | some v =>
    if sameOpChan.any (fun info => decide (info.id = none)) then
      .error (.valueError "Cannot set msgID: an instance in this operation and channel has msgID=None")
    else if sameOpChan.any (fun info => decide (info.id = some v)) then
      .error (.valueError "An instance with this msgID already exists in this operation and channel")
    else .ok ()

/-- `BaseDriver._try_to_connect` loop body: attempt index `retries`, remaining
fuel out of the 90-attempt budget; returns the index of the first successful
attempt (`outcomes k = true` means `connect()` returned 0 on attempt `k`). -/
def tryLoop (outcomes : Nat → Bool) : Nat → Nat → Option Nat
  | _, 0 => none
  | retries, fuel + 1 =>
    if outcomes retries then some retries else tryLoop outcomes (retries + 1) fuel

/-- `BaseDriver._try_to_connect` (base_driver.py:81-95): `max_retries = 60*3/2
= 90`; each failed attempt is followed by `time.sleep(2)`; exhausting the
budget raises `ConnectionError`.  On success the result is the number of
failed attempts that preceded it (= the number of 2-second sleeps). -/
def tryToConnect (outcomes : Nat → Bool) : Except DriverError Nat :=
  match tryLoop outcomes 0 90 with
  | some k => .ok k
  | none => .error (.connectionError "Unable to establish connection after maximum retries.")

/-- `BaseDriver.__store_info` (base_driver.py:45-60). -/
def storeInfo (s : RegState) (name protocol : String) (op : Operation)
    (chan : String) (id : Option Int) : RegState :=
  let s1 :=
    { s with instancesInfo := setAssoc s.instancesInfo name ⟨id, protocol, chan, op, true, 0⟩ }
  let ci := (getAssoc s1.channelsOperationsInfo chan).getD emptyChannelInfo
  { s1 with channelsOperationsInfo :=
      setAssoc s1.channelsOperationsInfo chan (setOpCount ci op id 0) }

/-- `BaseDriver._set_central_receiver` (base_driver.py:62-73): for a receiving
instance, lazily create the channel's buffer, seed the instance's entry with
`None`, and start the dispatcher thread only when the channel's buffer did not
exist yet.  The returned flag records whether a thread was started. -/
def setCentralReceiver (s : RegState) (op : Operation) (chan : String) (id : Option Int) :
    RegState × Bool :=
  match op with
  | .send => (s, false)
  | .receive =>
    match getAssoc s.receivedMsgsBuffer chan with
    | none =>
      let buf := setAssoc (setAssoc ([] : List (Option Int × Option (List Nat))) id none) id none
      ({ s with receivedMsgsBuffer := setAssoc s.receivedMsgsBuffer chan buf }, true)
    | some buf =>
      ({ s with receivedMsgsBuffer := setAssoc s.receivedMsgsBuffer chan (setAssoc buf id none) }, false)

/-- Data returned by a successful construction: the instance's attributes,
the number of failed connect attempts (each followed by a 2-second sleep),
and whether this construction started the channel's dispatcher thread. -/
structure ConstructMeta : Type where
  drv : DriverInst
  sleeps : Nat
  threadStarted : Bool
deriving DecidableEq, Repr

/-- `BaseDriver.__init__` (base_driver.py:22-43), in source order: the
`msgName` setter (uniqueness across the whole registry), the `msgID` setter
(scoped uniqueness), `_try_to_connect`, `__store_info`,
`_set_central_receiver`.  All raises happen before any registry mutation, so
an error returns the registry unchanged. -/
def constructDriver (s : RegState) (protocol name : String) (op : Operation)
    (chan : String) (value : Option Int) (outcomes : Nat → Bool) :
    RegState × Except DriverError ConstructMeta :=
  if s.instancesInfo.any (fun p => decide (p.1 = name)) then
    (s, .error (.valueError "msgName must have a unique value"))
  else
    match msgIDCheck s op chan value with
    | .error e => (s, .error e)
    | .ok _ =>
      match tryToConnect outcomes with
      | .error e => (s, .error e)
      | .ok k =>
        let s1 := storeInfo s name protocol op chan value
        let r := setCentralReceiver s1 op chan value
        (r.1, .ok ⟨⟨name, op, chan, value, true, 0, none⟩, k, r.2⟩)

/-- `BaseDriver.__increment_msg_count` (base_driver.py:98-106).  A registry
lookup that Python would answer with `KeyError` is modelled as the `.error`
branch carrying the state as mutated so far (the exception is caught by the
caller's `except` clause); under the registered-instance hypotheses of the
theorems below the `.error` branches are never taken. -/
def incrementMsgCount (s : RegState) (d : DriverInst) :
    Except (RegState × DriverInst) (RegState × DriverInst) :=
  match d.operation with
  | .send =>
    match getAssoc s.channelsOperationsInfo d.channel with
    | none => .error (s, d)
    | some ci =>
      match getAssoc ci.sendCounts d.id with
      | none => .error (s, d)
      | some c =>
        let ci2 := { ci with sendCounts := setAssoc ci.sendCounts d.id (c + 1) }
        let s2 := { s with channelsOperationsInfo := setAssoc s.channelsOperationsInfo d.channel ci2 }
        let d2 := { d with numOfMsgs := d.numOfMsgs + 1 }
        match getAssoc s2.instancesInfo d.name with
        | none => .error (s2, d2)
        | some info =>
          let info2 := { info with numOfMsgs := d2.numOfMsgs }
          .ok ({ s2 with instancesInfo := setAssoc s2.instancesInfo d.name info2 }, d2)
  | .receive =>
    match getAssoc s.channelsOperationsInfo d.channel with
    | none => .error (s, d)
    | some ci =>
      match getAssoc ci.receiveCounts d.id with
      | none => .error (s, d)
      | some c =>
        let d2 := { d with numOfMsgs := c }
        match getAssoc s.instancesInfo d.name with
        | none => .error (s, d2)
        | some info =>
          let info2 := { info with numOfMsgs := c }
          .ok ({ s with instancesInfo := setAssoc s.instancesInfo d.name info2 }, d2)

/-- Result of a transport's `threaded_send` worker: final registry, final
instance attributes, the returned status (0 success / 1 failure), and the
byte strings actually written to the transport, in order. -/
structure ThreadedResult : Type where
  state : RegState
  drv : DriverInst
  status : Nat
  written : List (List Nat)
deriving DecidableEq, Repr

/-- Result of the caller-facing `send`: `status = none` models Python's
implicit `return None` when the single-flight guard rejects the call. -/
structure SendOutcome : Type where
  state : RegState
  drv : DriverInst
  status : Option Nat
  written : List (List Nat)
deriving DecidableEq, Repr

/-- `BaseDriver.send` (base_driver.py:109-126): if `__pending_message` is not
`None` the body is skipped and Python returns `None`; otherwise the worker
runs (joined synchronously), a 0 status triggers `__increment_msg_count`, a
raised exception there is answered with status 1, and the `finally` clause
clears the pending marker unconditionally. -/
def baseSend (threaded : RegState → DriverInst → ThreadedResult) (s : RegState)
    (d : DriverInst) : SendOutcome :=
  match d.pending with
  | some _ => ⟨s, d, none, []⟩
  | none =>
    let r := threaded s d
    if r.status = 0 then
      match incrementMsgCount r.state r.drv with
      | .ok (s2, d2) => ⟨s2, { d2 with pending := none }, some 0, r.written⟩
      | .error (s2, d2) => ⟨s2, { d2 with pending := none }, some 1, r.written⟩
    else ⟨r.state, { r.drv with pending := none }, some r.status, r.written⟩

/-- `n.to_bytes(len, 'little')` for `n < 256^len` (Python raises
`OverflowError` outside that range; the framing functions below guard the
range and map the raise to their exception path). -/
def natToBytesLE : Nat → Nat → List Nat
  | _, 0 => []
  | n, len + 1 => n % 256 :: natToBytesLE (n / 256) len

/-- `n.to_bytes(len, 'big')`. -/
def natToBytesBE (n len : Nat) : List Nat := (natToBytesLE n len).reverse

/-- `int.from_bytes(bs, 'little')`. -/
def bytesToNatLE : List Nat → Nat
  | [] => 0
  | b :: bs => b + 256 * bytesToNatLE bs

/-- The Serial wire frame built by `SerialSender.threaded_send`
(serial_driver.py:86-87): `[id: msgIDLength bytes, little][len(data): 1
byte][data]` + terminator `b'\n'` when `msgIDLength` is non-zero, else
`data` + terminator.  `none` models the `AttributeError`/`OverflowError`
raised while building the header (caught by the retry loop). -/
def serialFrame (id : Option Int) (idLen : Nat) (data : List Nat) : Option (List Nat) :=
  if idLen = 0 then some (data ++ [10])
  else
    match id with
    | none => none
    | some v =>
      if 0 ≤ v ∧ v.toNat < 256 ^ idLen ∧ data.length < 256 then
        some (natToBytesLE v.toNat idLen ++ [data.length] ++ data ++ [10])
      else none

/-- `SerialSender.threaded_send` retry loop (serial_driver.py:82-101):
`writeOk i` tells whether the i-th iteration finds the port open and the
write succeeds; a failed iteration reconnects (no registry effect) and
retries; the timeout is the fuel; timing out returns 1.  A successful
iteration runs `clean_buffer` (reset `sentInBuffer` at the 64-byte
threshold), writes the frame, and adds its length to `sentInBuffer`. -/
def serialThreadedSend (idLen : Nat) (data : List Nat) (writeOk : Nat → Bool) :
    Nat → Nat → RegState → DriverInst → ThreadedResult
  | _, 0, s, d => ⟨s, d, 1, []⟩
  | i, fuel + 1, s, d =>
    if writeOk i then
      match serialFrame d.id idLen data, getAssoc s.channelsOperationsInfo d.channel with
      | some payload, some ci =>
        let ci1 := if 64 ≤ ci.sentInBuffer then { ci with sentInBuffer := 0 } else ci
        let ci2 := { ci1 with sentInBuffer := ci1.sentInBuffer + payload.length }
        ⟨{ s with channelsOperationsInfo := setAssoc s.channelsOperationsInfo d.channel ci2 },
          d, 0, [payload]⟩
      | _, _ => serialThreadedSend idLen data writeOk (i + 1) fuel s d
    else serialThreadedSend idLen data writeOk (i + 1) fuel s d

/-- `CANSender.threaded_send` retry loop (can_driver.py:97-125).  On a
successful `bus.send` the worker itself adds `len(data)` to `sentInBuffer`
and then calls `self._BaseDriver__increment_msg_count()` — the same counter
update that `BaseDriver.send` performs again on a 0 status — before
returning 0.  A `KeyError` raised mid-update is caught by the loop's
`except` and retried with the state as mutated so far (the frame was already
on the bus, hence it is recorded in `written`). -/
def canThreadedSend (data : List Nat) (writeOk : Nat → Bool) :
    Nat → Nat → RegState → DriverInst → ThreadedResult
  | _, 0, s, d => ⟨s, d, 1, []⟩
  | i, fuel + 1, s, d =>
    if writeOk i then
      match getAssoc s.channelsOperationsInfo d.channel with
      | none =>
        let r := canThreadedSend data writeOk (i + 1) fuel s d
        ⟨r.state, r.drv, r.status, data :: r.written⟩
      | some ci =>
        let ciW := { ci with sentInBuffer := ci.sentInBuffer + data.length }
        let s1 := { s with channelsOperationsInfo := setAssoc s.channelsOperationsInfo d.channel ciW }
        match incrementMsgCount s1 d with
        | .ok (s2, d2) => ⟨s2, d2, 0, [data]⟩
        | .error (s2, d2) =>
          let r := canThreadedSend data writeOk (i + 1) fuel s2 d2
          ⟨r.state, r.drv, r.status, data :: r.written⟩
    else canThreadedSend data writeOk (i + 1) fuel s d

/-- The SPI payload built once before the loop by `SPISender.threaded_send`
(spi_driver.py:88-94): `[len(data): msgLenLength bytes, big][id: msgIDLength
bytes, big][data]`; `none` models a raise while building the headers, which
propagates out of the worker thread so `send` answers with status 1. -/
def spiFrame (id : Option Int) (idLen lenLen : Nat) (data : List Nat) : Option (List Nat) :=
  match (if lenLen = 0 then some ([] : List Nat)
         else if data.length < 256 ^ lenLen then some (natToBytesBE data.length lenLen)
         else none),
        (if idLen = 0 then some ([] : List Nat)
         else match id with
           | none => none
           | some v => if 0 ≤ v ∧ v.toNat < 256 ^ idLen then some (natToBytesBE v.toNat idLen)
             else none) with
  | some lh, some ih => some (lh ++ ih ++ data)
  | _, _ => none

/-- Replace one channel's entry of `channelsOperationsInfo` (the common shape
of every `BaseDriver.channelsOperationsInfo[self.channel]` mutation). -/
def setChannel (s : RegState) (chan : String) (ci : ChannelInfo) : RegState :=
  { s with channelsOperationsInfo := setAssoc s.channelsOperationsInfo chan ci }

/-- `SPIBaseDriver.clean_buffer` (spi_driver.py:64-72): reset either byte
counter once it reaches the 4096-byte `SPIBUFFER` threshold. -/
def spiCleanBuffer (ci : ChannelInfo) : ChannelInfo :=
  let ci1 := if 4096 ≤ ci.sentInBuffer then { ci with sentInBuffer := 0 } else ci
  if 4096 ≤ ci1.receivedInBuffer then { ci1 with receivedInBuffer := 0 } else ci1

/-- `SPISender.threaded_send` retry loop (spi_driver.py:96-111).  Every
iteration first runs `clean_buffer`; a successful `xfer2` then adds the
payload length to `sentInBuffer`, after which `self.__increment_msg_count()`
— name-mangled to the nonexistent `_SPISender__increment_msg_count` — raises
`AttributeError`, which the loop's `except` catches; hence the loop never
returns 0 and times out with status 1. -/
def spiThreadedSendLoop (payload : List Nat) (writeOk : Nat → Bool) :
    Nat → Nat → RegState → DriverInst → ThreadedResult
  | _, 0, s, d => ⟨s, d, 1, []⟩
  | i, fuel + 1, s, d =>
    match getAssoc s.channelsOperationsInfo d.channel with
    | none => spiThreadedSendLoop payload writeOk (i + 1) fuel s d
    | some ci =>
      let sClean := setChannel s d.channel (spiCleanBuffer ci)
      if writeOk i then
        match getAssoc sClean.channelsOperationsInfo d.channel with
        | none => spiThreadedSendLoop payload writeOk (i + 1) fuel sClean d
        | some ci3 =>
          let sW := setChannel sClean d.channel
            { ci3 with sentInBuffer := ci3.sentInBuffer + payload.length }
          let r := spiThreadedSendLoop payload writeOk (i + 1) fuel sW d
          ⟨r.state, r.drv, r.status, payload :: r.written⟩
      else spiThreadedSendLoop payload writeOk (i + 1) fuel sClean d

/-- The full Serial `send(data)` path: `BaseDriver.send` wrapping
`SerialSender.threaded_send`. -/
def serialSend (idLen : Nat) (data : List Nat) (writeOk : Nat → Bool) (fuel : Nat)
    (s : RegState) (d : DriverInst) : SendOutcome :=
  baseSend (serialThreadedSend idLen data writeOk 0 fuel) s d

/-- The full CAN `send(data)` path: `BaseDriver.send` wrapping
`CANSender.threaded_send`. -/
def canSend (data : List Nat) (writeOk : Nat → Bool) (fuel : Nat)
    (s : RegState) (d : DriverInst) : SendOutcome :=
  baseSend (canThreadedSend data writeOk 0 fuel) s d

/-- The full SPI `send(data)` path.  When the header build raises, the worker
thread dies before appending a status, `statusContainer[0]` raises
`IndexError`, and `send`'s `except` returns 1 with the pending marker
cleared by `finally`. -/
def spiSend (idLen lenLen : Nat) (data : List Nat) (writeOk : Nat → Bool) (fuel : Nat)
    (s : RegState) (d : DriverInst) : SendOutcome :=
  match d.pending with
  | some _ => ⟨s, d, none, []⟩
  | none =>
    match spiFrame d.id idLen lenLen data with
    | none => ⟨s, { d with pending := none }, some 1, []⟩
    | some payload => baseSend (spiThreadedSendLoop payload writeOk 0 fuel) s d

/-- `SerialReceiver.__none_all_data` / `CANReceiver.__none_all_data` /
`SPIReceiver.__none_all_data`: set every identifier's entry of the channel's
receive buffer to `None`.  (The dispatch loop only runs on channels whose
buffer entry exists, so the missing-channel branch is never reached there.) -/
def noneAllData (s : RegState) (chan : String) : RegState :=
  match getAssoc s.receivedMsgsBuffer chan with
  | none => s
  | some buf =>
    let buf2 := buf.map (fun p => (p.1, (none : Option (List Nat))))
    { s with receivedMsgsBuffer := setAssoc s.receivedMsgsBuffer chan buf2 }

/-- The `while len(msg) < msg_length + 1` accumulation loop of
`SerialReceiver.__handle_received_msg` (serial_driver.py:125-130): keep
appending further `readline()` results (`more`); an empty read aborts with a
warning (`none`). -/
def accumulateMsg (needed : Nat) (msg : List Nat) : List (List Nat) → Option (List Nat)
  | [] => if needed ≤ msg.length then some msg else none
  | m :: rest =>
    if needed ≤ msg.length then some msg
    else if m.isEmpty then none
    else accumulateMsg needed (msg ++ m) rest

/-- `receivedInBuffer += n` followed by `clean_buffer` for a Serial receiver
(serial_driver.py:138-139 and 47-51: the counter is reset once it reaches the
64-byte `SERIALBUFFER` threshold). -/
def bumpReceivedInBuffer (s : RegState) (chan : String) (n : Nat) : RegState :=
  match getAssoc s.channelsOperationsInfo chan with
  | none => s
  | some ci =>
    let ci2 := { ci with receivedInBuffer := ci.receivedInBuffer + n }
    let ci3 := if 64 ≤ ci2.receivedInBuffer then { ci2 with receivedInBuffer := 0 } else ci2
    { s with channelsOperationsInfo := setAssoc s.channelsOperationsInfo chan ci3 }

/-- The counter bookkeeping of a matched Serial frame
(serial_driver.py:136-139): increment the parsed id's receive counter, add
the frame's size to `receivedInBuffer`, run `clean_buffer`.  A `KeyError`
(missing channel or counter entry) is caught by the handler's `except`,
skipping the remaining lines — hence the `s` fallbacks.  Only
`channelsOperationsInfo` is touched. -/
def serialCountAndClean (s : RegState) (chan : String) (key : Option Int) (nbytes : Nat) :
    RegState :=
  match getAssoc s.channelsOperationsInfo chan with
  | none => s
  | some ci =>
    match getAssoc ci.receiveCounts key with
    | none => s
    | some c =>
      let ci2 := { ci with receiveCounts := setAssoc ci.receiveCounts key (c + 1) }
      let s2 := { s with channelsOperationsInfo := setAssoc s.channelsOperationsInfo chan ci2 }
      bumpReceivedInBuffer s2 chan nbytes

/-- `SerialReceiver.__handle_received_msg` (serial_driver.py:112-149).
With an id header: parse `[id][length]` little-endian, accumulate the
payload, and only if the parsed id is a key of the channel's buffer store the
payload there and increment that id's receive counter; the byte counter and
`clean_buffer` run in either case.  Without an id header: store
`read[:-1]` under the instance's own `msgID`.  Registry lookups Python would
answer with `KeyError` (caught by the handler's `except`, or in the no-id
branch killing the dispatcher thread) leave the state as mutated so far. -/
def serialHandleReceived (s : RegState) (chan : String) (selfId : Option Int) (idLen : Nat)
    (read : List Nat) (more : List (List Nat)) : RegState :=
  if read.isEmpty then s
  else if idLen ≠ 0 then
    let pid := bytesToNatLE (read.take idLen)
    let msgLen := bytesToNatLE ((read.drop idLen).take 1)
    match accumulateMsg (msgLen + 1) (read.drop (idLen + 1)) more with
    | none => s
    | some msg =>
      let payload := msg.take msgLen
      let key : Option Int := some (Int.ofNat pid)
      match getAssoc s.receivedMsgsBuffer chan with
      | none => s
      | some buf =>
        if (getAssoc buf key).isSome then
          let s1 := { s with receivedMsgsBuffer := setAssoc s.receivedMsgsBuffer chan (setAssoc buf key (some payload)) }
          serialCountAndClean s1 chan key (idLen + 1 + msgLen)
        else
          bumpReceivedInBuffer s chan (idLen + 1 + msgLen)
  else
    let msg := read.dropLast
    match getAssoc s.receivedMsgsBuffer chan with
    | none => s
    | some buf =>
      let s1 := { s with receivedMsgsBuffer := setAssoc s.receivedMsgsBuffer chan (setAssoc buf selfId (some msg)) }
      serialCountAndClean s1 chan selfId (msg.length + 1)

/-- The counter bookkeeping of a matched CAN frame (can_driver.py:158-160):
increment the id's receive counter and add the payload length to
`receivedInBuffer` (`CANBaseDriver.clean_buffer` is `pass`); a `KeyError` is
caught by the loop's broad `except`.  Only `channelsOperationsInfo` is
touched. -/
def canCountAndBump (s : RegState) (chan : String) (selfId : Option Int) (n : Nat) :
    RegState :=
  match getAssoc s.channelsOperationsInfo chan with
  | none => s
  | some ci =>
    match getAssoc ci.receiveCounts selfId with
    | none => s
    | some c =>
      let ci2 := { ci with receiveCounts := setAssoc ci.receiveCounts selfId (c + 1), receivedInBuffer := ci.receivedInBuffer + n }
      { s with channelsOperationsInfo := setAssoc s.channelsOperationsInfo chan ci2 }

/-- `CANReceiver.__handle_message` (can_driver.py:153-161): a frame is stored
only when its arbitration id equals the instance's `msgID`; the buffer entry
is overwritten and the counters updated. -/
def canHandleMessage (s : RegState) (chan : String) (selfId : Option Int) (arbId : Int)
    (data : List Nat) : RegState :=
  if some arbId = selfId then
    match getAssoc s.receivedMsgsBuffer chan with
    | none => s
    | some buf =>
      let s1 := { s with receivedMsgsBuffer := setAssoc s.receivedMsgsBuffer chan (setAssoc buf selfId (some data)) }
      canCountAndBump s1 chan selfId data.length
  else s

/-- One observable event of the Serial dispatch loop: a successful
`readline()` (with the further lines the length-accumulation may consume) or
a transport I/O failure (`SerialException` or port found closed). -/
inductive SerialRxEvent : Type
  | line (read : List Nat) (more : List (List Nat))
  | ioError
deriving Repr

/-- One iteration of `SerialReceiver.central_receive`
(serial_driver.py:159-174): a read is handled; an I/O failure clears every
entry of the channel's buffer before the reconnect policy runs. -/
def serialReceiveStep (chan : String) (selfId : Option Int) (idLen : Nat) (s : RegState) :
    SerialRxEvent → RegState
  | .line read more => serialHandleReceived s chan selfId idLen read more
  | .ioError => noneAllData s chan

/-- One observable event of the CAN dispatch loop: a received frame, a recv
timeout (`msg is None`), or an I/O failure. -/
inductive CanRxEvent : Type
  | frame (arbId : Int) (data : List Nat)
  | timeout
  | ioError
deriving Repr

/-- One iteration of `CANReceiver.central_receive` (can_driver.py:163-178). -/
def canReceiveStep (chan : String) (selfId : Option Int) (s : RegState) :
    CanRxEvent → RegState
  | .frame a dt => canHandleMessage s chan selfId a dt
  | .timeout => s
  | .ioError => noneAllData s chan

/-- The loop condition of `SerialReceiver.central_receive`: `while True` —
it never consults the instance's running flag. -/
def serialLoopGuard (_ : DriverInst) : Bool := true

/-- The loop condition of `SPIReceiver.central_receive`: `while True`. -/
def spiLoopGuard (_ : DriverInst) : Bool := true

/-- The loop condition of `CANReceiver.central_receive`:
`while getattr(self, '_BaseDriver__isRunning', True)` — it reads the running
flag that `stop()` flips. -/
def canLoopGuard (d : DriverInst) : Bool := d.running

/-- `BaseDriver.stop` (base_driver.py:136-140): set `__isRunning = False` and
mirror it into `instancesInfo`; nothing else in the registry changes. -/
def stopDriver (s : RegState) (d : DriverInst) : RegState × DriverInst :=
  let d2 := { d with running := false }
  match getAssoc s.instancesInfo d.name with
  | none => (s, d2)
  | some info =>
    let info2 := { info with running := false }
    ({ s with instancesInfo := setAssoc s.instancesInfo d.name info2 }, d2)

/-- The except-handler of a Serial receive loop iteration: `__none_all_data`,
then the bounded `_try_to_connect` reconnect; the flag records whether the
loop resumes (reconnect succeeded) or the raised `ConnectionError` kills the
dispatcher thread (the cleared registry persists either way). -/
def serialIoErrorRecovery (chan : String) (outcomes : Nat → Bool) (s : RegState) :
    RegState × Bool :=
  let s1 := noneAllData s chan
  match tryToConnect outcomes with
  | .ok _ => (s1, true)
  | .error _ => (s1, false)

/-- The `TYPE_SIZES` dictionary of
`ActuatorsCommandsDriver.acutators_commands_struct` (actuator_commands_driver.py:102-111). -/
def TYPE_SIZES : Char → Option Nat
  | 'b' => some 1
  | 'B' => some 1
  | '?' => some 1
  | 'h' => some 2
  | 'H' => some 2
  | 'i' => some 4
  | 'I' => some 4
  | 'q' => some 8
  | 'Q' => some 8
  | 'e' => some 2
  | 'f' => some 4
  | 'd' => some 8
  | _ => none

/-- `msg_len = sum(TYPE_SIZES[char] for char in struct_string)`. -/
def structMsgLen (cs : List Char) : Nat := (cs.map (fun c => (TYPE_SIZES c).getD 0)).sum

/-- The names bound at module scope by base_driver.py: its imports (`ABC`,
`abstractmethod` from abc, `LoggingMixin`, the `threading` and `time`
modules) and the one class it defines, `BaseDriver`.  Notably absent:
`MsgLengthError`, which the module never defines. -/
def baseDriverModuleNames : List String :=
  ["ABC", "abstractmethod", "LoggingMixin", "threading", "time", "BaseDriver"]

/-- `from hardware.base_driver import <names>`: Python raises `ImportError`
as soon as a requested name is not an attribute of the module. -/
def importFromBaseDriver (names : List String) : Except DriverError Unit :=
  if names.all (fun n => baseDriverModuleNames.contains n) then .ok ()
  else .error (.importError "cannot import name MsgLengthError from hardware.base_driver")

/-- The module-level import of actuator_commands_driver.py line 9:
`from hardware.base_driver import BaseDriver, MsgLengthError`. -/
def importActuatorCommandsDriverModule : Except DriverError Unit :=
  importFromBaseDriver ["BaseDriver", "MsgLengthError"]

/-- The module-level import of encoder_driver.py line 12:
`from hardware.base_driver import MsgLengthError`. -/
def importEncoderDriverModule : Except DriverError Unit :=
  importFromBaseDriver ["MsgLengthError"]

/-- The `acutators_commands_struct` setter
(actuator_commands_driver.py:88-125): reject invalid characters; when the
low-level driver is a `CANSender`, reject a total width above 8 bytes with
`MsgLengthError`; otherwise accept and store the schema.  The setter is pure
configuration — it performs no transport operation, so no connection attempt
occurs while it runs.  NOTE: in the shipped program this setter is dead
code — its module's import of `MsgLengthError` (see
`importActuatorCommandsDriverModule`) fails before the class can be used —
so this definition embeds the source text of code that is unreachable at
runtime. -/
def setActuatorsCommandsStruct (isCANSender : Bool) (structString : List Char) :
    Except DriverError (List Char) :=
  if structString.all (fun c => (TYPE_SIZES c).isSome) then
    if isCANSender ∧ 8 < structMsgLen structString then
      .error (.msgLengthError "acutators_commands_struct length exceeds 8 bytes")
    else .ok structString
  else .error (.valueError "acutators_commands_struct contains invalid characters")

/-- `EncoderBaseDriver._validate_input` (encoder_driver.py:19-50), checks in
source order; the string-type checks are subsumed by the argument types.
NOTE: in the shipped program this validator is dead code — encoder_driver.py
line 12 imports the undefined `MsgLengthError` from base_driver (see
`importEncoderDriverModule`), so the module never loads — this definition
embeds the source text of code that is unreachable at runtime. -/
def encoderValidateInput (protocol : String) (numEncoders : Int) (floatSize : Int)
    (endianess : String) : Except DriverError Unit :=
  if protocol ≠ "serial" ∧ protocol ≠ "can" then
    .error (.valueError "protocol must be either serial or can")
  else if floatSize ≠ 4 ∧ floatSize ≠ 8 then
    .error (.valueError "float_size must be either 4 or 8")
  else if endianess ≠ "little" ∧ endianess ≠ "big" then
    .error (.valueError "endianess must be either little or big")
  else if numEncoders < 1 then
    .error (.valueError "num_encoders must be greater than 0")
  else if protocol = "can" ∧ 8 < numEncoders * floatSize then
    .error (.valueError "num_encoders * float_size must be less than or equal to 8")
  else .ok ()

/-- A registry holding one sending instance named "a" with identifier 5 on
channel "ch" (used as a concrete input by several witnesses). -/
def exInfoSend : InstanceInfo := ⟨some 5, "SerialSender", "ch", Operation.send, true, 0⟩

def exState1 : RegState := ⟨[("a", exInfoSend)], [], []⟩

/-- A registry whose only instance in scope (receive, "chN") holds the
no-identifier value `msgID = None`. -/
def exInfoNone : InstanceInfo := ⟨none, "SerialReceiver", "chN", Operation.receive, true, 0⟩

def exStateNone : RegState := ⟨[("n", exInfoNone)], [], [("chN", [(none, none)])]⟩

def exEmpty : RegState := ⟨[], [], []⟩

/-- A registry holding one CAN sending instance "m", identifier 3, channel
"can0", with its frame counter initialised to 0. -/
def exCanCh : ChannelInfo := ⟨[], [(some 3, 0)], 0, 0⟩

def exCanInfo : InstanceInfo := ⟨some 3, "CANSender", "can0", Operation.send, true, 0⟩

def exCanState : RegState := ⟨[("m", exCanInfo)], [("can0", exCanCh)], []⟩

def exCanDrv : DriverInst := ⟨"m", Operation.send, "can0", some 3, true, 0, none⟩

/-- A driver instance whose previous send is still in flight. -/
def exDrvPending : DriverInst := ⟨"p", Operation.send, "ch", some 1, true, 0, some [42]⟩

/-- A CAN receiving instance "r", identifier 7, channel "can0", with a seeded
buffer entry. -/
def exCanRecvState : RegState :=
  ⟨[("r", ⟨some 7, "CANReceiver", "can0", Operation.receive, true, 0⟩)],
    [("can0", ⟨[(some 7, 0)], [], 0, 0⟩)],
    [("can0", [(some 7, some [9, 9])])]⟩

def exCanRecvDrv : DriverInst := ⟨"r", Operation.receive, "can0", some 7, true, 0, none⟩

/-- The registry after the first Serial receiver of Scenario 3 ("r1",
id 0x10 = 16, channel "ch") is constructed on an empty registry. -/
def scen3s1 : RegState :=
  (constructDriver exEmpty "SerialReceiver" "r1" Operation.receive "ch" (some 16)
    (fun _ => true)).1

/-- The registry after the second Serial receiver of Scenario 3 ("r2",
id 0x11 = 17, same channel) is constructed on top of `scen3s1`. -/
def scen3s2 : RegState :=
  (constructDriver scen3s1 "SerialReceiver" "r2" Operation.receive "ch" (some 17)
    (fun _ => true)).1

theorem tryLoop_eq_none (outcomes : Nat → Bool) :
    ∀ fuel r, (∀ j, r ≤ j → j < r + fuel → outcomes j = false) →
      tryLoop outcomes r fuel = none := by
  intro fuel
  induction fuel with
  | zero => intro r _; rfl
  | succ n ih =>
    intro r h
    have h0 : outcomes r = false := h r le_rfl (by omega)
    simp only [tryLoop, h0, Bool.false_eq_true, if_false]
    exact ih (r + 1) (fun j hj1 hj2 => h j (by omega) (by omega))

theorem tryLoop_eq_some (outcomes : Nat → Bool) (k : Nat) (hk : outcomes k = true)
    (hbefore : ∀ j, j < k → outcomes j = false) :
    ∀ fuel r, r ≤ k → k < r + fuel → tryLoop outcomes r fuel = some k := by
  intro fuel
  induction fuel with
  | zero => intro r h1 h2; omega
  | succ n ih =>
    intro r h1 h2
    by_cases hr : r = k
    · subst hr; simp [tryLoop, hk]
    · have hf : outcomes r = false := hbefore r (by omega)
      simp only [tryLoop, hf, Bool.false_eq_true, if_false]
      exact ih (r + 1) (by omega) (by omega)

theorem setCentralReceiver_instancesInfo (s : RegState) (op : Operation) (chan : String)
    (id : Option Int) : (setCentralReceiver s op chan id).1.instancesInfo = s.instancesInfo := by
  unfold setCentralReceiver
  cases op with
  | send => rfl
  | receive => cases getAssoc s.receivedMsgsBuffer chan <;> rfl

theorem msgIDCheck_some_error (s : RegState) (op : Operation) (chan : String) (v : Int)
    (info₀ : InstanceInfo) (hmem : info₀ ∈ s.instancesInfo.map Prod.snd)
    (hch : info₀.channel = chan) (hop : info₀.operation = op) (hid : info₀.id = some v) :
    ∃ m, msgIDCheck s op chan (some v) = .error (.valueError m) := by
  have hfil : info₀ ∈ (s.instancesInfo.map Prod.snd).filter
      (fun info => decide (info.operation = op) && decide (info.channel = chan)) := by
    rw [List.mem_filter]
    exact ⟨hmem, by simp [hop, hch]⟩
  by_cases h1 : ((s.instancesInfo.map Prod.snd).filter
      (fun info => decide (info.operation = op) && decide (info.channel = chan))).any
      (fun info => decide (info.id = none)) = true
  · have heq : msgIDCheck s op chan (some v) = .error (.valueError
        "Cannot set msgID: an instance in this operation and channel has msgID=None") := by
      simp only [msgIDCheck, h1, if_true]
    exact ⟨_, heq⟩
  · have h2 : ((s.instancesInfo.map Prod.snd).filter
        (fun info => decide (info.operation = op) && decide (info.channel = chan))).any
        (fun info => decide (info.id = some v)) = true :=
      List.any_eq_true.2 ⟨info₀, hfil, by simp [hid]⟩
    rw [Bool.not_eq_true] at h1
    have heq : msgIDCheck s op chan (some v) = .error (.valueError
        "An instance with this msgID already exists in this operation and channel") := by
      simp only [msgIDCheck, h1, h2, Bool.false_eq_true, if_false, if_true]
    exact ⟨_, heq⟩

theorem msgIDCheck_some_error_of_none (s : RegState) (op : Operation) (chan : String)
    (v : Int) (info₀ : InstanceInfo) (hmem : info₀ ∈ s.instancesInfo.map Prod.snd)
    (hch : info₀.channel = chan) (hop : info₀.operation = op) (hidn : info₀.id = none) :
    ∃ m, msgIDCheck s op chan (some v) = .error (.valueError m) := by
  have hfil : info₀ ∈ (s.instancesInfo.map Prod.snd).filter
      (fun info => decide (info.operation = op) && decide (info.channel = chan)) := by
    rw [List.mem_filter]
    exact ⟨hmem, by simp [hop, hch]⟩
  have h1 : ((s.instancesInfo.map Prod.snd).filter
      (fun info => decide (info.operation = op) && decide (info.channel = chan))).any
      (fun info => decide (info.id = none)) = true :=
    List.any_eq_true.2 ⟨info₀, hfil, by simp [hidn]⟩
  have heq : msgIDCheck s op chan (some v) = .error (.valueError
      "Cannot set msgID: an instance in this operation and channel has msgID=None") := by
    simp only [msgIDCheck, h1, if_true]
  exact ⟨_, heq⟩

theorem msgIDCheck_none_error (s : RegState) (op : Operation) (chan : String)
    (info₀ : InstanceInfo) (hmem : info₀ ∈ s.instancesInfo.map Prod.snd)
    (hch : info₀.channel = chan) (hop : info₀.operation = op) :
    ∃ m, msgIDCheck s op chan none = .error (.valueError m) := by
  have hfil : info₀ ∈ (s.instancesInfo.map Prod.snd).filter
      (fun info => decide (info.operation = op) && decide (info.channel = chan)) := by
    rw [List.mem_filter]
    exact ⟨hmem, by simp [hop, hch]⟩
  have hne : ((s.instancesInfo.map Prod.snd).filter
      (fun info => decide (info.operation = op) && decide (info.channel = chan))).isEmpty = false := by
    cases h : ((s.instancesInfo.map Prod.snd).filter
        (fun info => decide (info.operation = op) && decide (info.channel = chan))).isEmpty
    · rfl
    · exact absurd (List.isEmpty_iff.mp h ▸ hfil) (List.not_mem_nil info₀)
  have heq : msgIDCheck s op chan none = .error (.valueError
      "Cannot set msgID to None: another instance in this operation and channel already has msgID or msgID=None") := by
    simp only [msgIDCheck, hne, Bool.false_eq_true, if_false]
  exact ⟨_, heq⟩

theorem msgIDCheck_ok_of_scope_free (s : RegState) (op : Operation) (chan : String)
    (v : Int)
    (hscope : ∀ p ∈ s.instancesInfo, p.2.operation = op → p.2.channel = chan →
      p.2.id ≠ none ∧ p.2.id ≠ some v) :
    msgIDCheck s op chan (some v) = .ok () := by
  have hmem : ∀ info ∈ (s.instancesInfo.map Prod.snd).filter
      (fun info => decide (info.operation = op) && decide (info.channel = chan)),
      info.id ≠ none ∧ info.id ≠ some v := by
    intro info hinfo
    rw [List.mem_filter] at hinfo
    obtain ⟨hmap, hpred⟩ := hinfo
    obtain ⟨p, hp, hpe⟩ := List.mem_map.mp hmap
    simp only [Bool.and_eq_true, decide_eq_true_eq] at hpred
    exact hpe ▸ hscope p hp (hpe ▸ hpred.1) (hpe ▸ hpred.2)
  have h1 : ((s.instancesInfo.map Prod.snd).filter
      (fun info => decide (info.operation = op) && decide (info.channel = chan))).any
      (fun info => decide (info.id = none)) = false := by
    rw [← Bool.not_eq_true, List.any_eq_true]
    rintro ⟨info, hinfo, hdec⟩
    exact (hmem info hinfo).1 (by simpa using hdec)
  have h2 : ((s.instancesInfo.map Prod.snd).filter
      (fun info => decide (info.operation = op) && decide (info.channel = chan))).any
      (fun info => decide (info.id = some v)) = false := by
    rw [← Bool.not_eq_true, List.any_eq_true]
    rintro ⟨info, hinfo, hdec⟩
    exact (hmem info hinfo).2 (by simpa using hdec)
  simp only [msgIDCheck, h1, h2, Bool.false_eq_true, if_false]

/-- Claim C1: identifier uniqueness is scoped to `(channel, operation)`.
Given any registered instance `info₀` in scope `(chan, op)`:
(1) constructing a driver whose `msgID` equals `info₀`'s fails with a
configuration error (`ValueError`);
(2) if `info₀` holds the no-identifier value, constructing any concrete
`msgID` in that scope also fails;
(3) constructing with `msgID = None` fails as soon as any instance exists in
that scope — whatever identifier it holds, including `None` itself — so at
most one instance per scope may hold the no-identifier value;
(4) the same `msgID` is accepted when the target `(channel, operation)`
scope holds no conflicting instance, in particular on a different channel or
a different operation. -/
theorem msgID_uniqueness_scoped (s : RegState) (name₀ : String) (info₀ : InstanceInfo)
    (chan : String) (op : Operation)
    (hmem : (name₀, info₀) ∈ s.instancesInfo)
    (hch : info₀.channel = chan) (hop : info₀.operation = op) :
    (∀ v : Int, info₀.id = some v → ∀ proto name outcomes, ∃ m,
        constructDriver s proto name op chan (some v) outcomes = (s, .error (.valueError m)))
    ∧ (info₀.id = none → ∀ (v : Int) proto name outcomes, ∃ m,
        constructDriver s proto name op chan (some v) outcomes = (s, .error (.valueError m)))
    ∧ (∀ proto name outcomes, ∃ m,
        constructDriver s proto name op chan none outcomes = (s, .error (.valueError m)))
    ∧ (∀ (v : Int) proto name op' chan' outcomes,
        (∀ p ∈ s.instancesInfo, p.2.operation = op' → p.2.channel = chan' →
          p.2.id ≠ none ∧ p.2.id ≠ some v) →
        getAssoc s.instancesInfo name = none →
        outcomes 0 = true →
        ∃ s' m, constructDriver s proto name op' chan' (some v) outcomes = (s', .ok m)) := by
  have hmapmem : info₀ ∈ s.instancesInfo.map Prod.snd :=
    List.mem_map.mpr ⟨(name₀, info₀), hmem, rfl⟩
  refine ⟨?_, ?_, ?_, ?_⟩
  · intro v hid proto name outcomes
    by_cases hname : s.instancesInfo.any (fun p => decide (p.1 = name)) = true
    · exact ⟨"msgName must have a unique value", by simp only [constructDriver, hname, if_true]⟩
    · rw [Bool.not_eq_true] at hname
      obtain ⟨m, hm⟩ := msgIDCheck_some_error s op chan v info₀ hmapmem hch hop hid
      exact ⟨m, by simp only [constructDriver, hname, Bool.false_eq_true, if_false, hm]⟩
  · intro hidn v proto name outcomes
    by_cases hname : s.instancesInfo.any (fun p => decide (p.1 = name)) = true
    · exact ⟨"msgName must have a unique value", by simp only [constructDriver, hname, if_true]⟩
    · rw [Bool.not_eq_true] at hname
      obtain ⟨m, hm⟩ := msgIDCheck_some_error_of_none s op chan v info₀ hmapmem hch hop hidn
      exact ⟨m, by simp only [constructDriver, hname, Bool.false_eq_true, if_false, hm]⟩
  · intro proto name outcomes
    by_cases hname : s.instancesInfo.any (fun p => decide (p.1 = name)) = true
    · exact ⟨"msgName must have a unique value", by simp only [constructDriver, hname, if_true]⟩
    · rw [Bool.not_eq_true] at hname
      obtain ⟨m, hm⟩ := msgIDCheck_none_error s op chan info₀ hmapmem hch hop
      exact ⟨m, by simp only [constructDriver, hname, Bool.false_eq_true, if_false, hm]⟩
  · intro v proto name op' chan' outcomes hscope hname hout
    have hany : s.instancesInfo.any (fun p => decide (p.1 = name)) = false := by
      rw [any_key_eq_isSome, hname]; rfl
    have hok := msgIDCheck_ok_of_scope_free s op' chan' v hscope
    have htry : tryToConnect outcomes = .ok 0 := by
      have := tryLoop_eq_some outcomes 0 hout (fun j hj => absurd hj (by omega)) 90 0
        (Nat.le_refl 0) (by omega)
      simp [tryToConnect, this]
    exact ⟨(setCentralReceiver (storeInfo s name proto op' chan' (some v)) op' chan' (some v)).1,
      ⟨⟨name, op', chan', some v, true, 0, none⟩, 0,
        (setCentralReceiver (storeInfo s name proto op' chan' (some v)) op' chan' (some v)).2⟩,
      by simp only [constructDriver, hany, Bool.false_eq_true, if_false, hok, htry]⟩

theorem msgID_uniqueness_scoped_witness :
    (("a", exInfoSend) ∈ exState1.instancesInfo
      ∧ ("n", exInfoNone) ∈ exStateNone.instancesInfo ∧ exInfoNone.id = none)
    ∧ (∃ m, constructDriver exState1 "SerialSender" "b" .send "ch" (some 5) (fun _ => true) =
        (exState1, .error (.valueError m)))
    ∧ (∃ m, constructDriver exStateNone "SerialReceiver" "b2" .receive "chN" (some 9)
        (fun _ => true) = (exStateNone, .error (.valueError m)))
    ∧ (∃ m, constructDriver exStateNone "SerialReceiver" "b3" .receive "chN" none
        (fun _ => true) = (exStateNone, .error (.valueError m)))
    ∧ (∃ s' m, constructDriver exState1 "SerialSender" "b" .send "other" (some 5)
        (fun _ => true) = (s', .ok m)) := by
  refine ⟨⟨by decide, by decide, rfl⟩, ?_, ?_, ?_, ?_⟩
  · exact (msgID_uniqueness_scoped exState1 "a" exInfoSend "ch" .send (by decide)
      rfl rfl).1 5 rfl "SerialSender" "b" (fun _ => true)
  · exact (msgID_uniqueness_scoped exStateNone "n" exInfoNone "chN" .receive (by decide)
      rfl rfl).2.1 rfl 9 "SerialReceiver" "b2" (fun _ => true)
  · exact (msgID_uniqueness_scoped exStateNone "n" exInfoNone "chN" .receive (by decide)
      rfl rfl).2.2.1 "SerialReceiver" "b3" (fun _ => true)
  · exact (msgID_uniqueness_scoped exState1 "a" exInfoSend "ch" .send (by decide)
      rfl rfl).2.2.2 5 "SerialSender" "b" .send "other" (fun _ => true) (by decide)
      (by decide) rfl

/-- Claim C2: `msgName` is unique across the whole registry.  If the requested
name is already a key of `instancesInfo` then construction fails with a
configuration error (`ValueError`), whatever the operation or channel, and
the registry is returned unmodified; conversely a successful construction
implies the name was fresh and is registered afterwards. -/
theorem msgName_unique_global (s : RegState) (proto name : String) (op : Operation)
    (chan : String) (id : Option Int) (outcomes : Nat → Bool) :
    ((getAssoc s.instancesInfo name).isSome →
      constructDriver s proto name op chan id outcomes =
        (s, .error (.valueError "msgName must have a unique value")))
    ∧ (∀ s' m, constructDriver s proto name op chan id outcomes = (s', .ok m) →
        getAssoc s.instancesInfo name = none ∧
        getAssoc s'.instancesInfo name = some ⟨id, proto, chan, op, true, 0⟩) := by
  constructor
  · intro hsome
    have hany : s.instancesInfo.any (fun p => decide (p.1 = name)) = true := by
      rw [any_key_eq_isSome, hsome]
    simp only [constructDriver, hany, if_true]
  · intro s' m h
    by_cases hany : s.instancesInfo.any (fun p => decide (p.1 = name)) = true
    · simp only [constructDriver, hany, if_true] at h
      exact absurd (congrArg Prod.snd h) (by simp)
    · have hnone : getAssoc s.instancesInfo name = none := by
        have := any_key_eq_isSome s.instancesInfo name
        rw [Bool.not_eq_true] at hany
        rw [hany] at this
        exact Option.not_isSome_iff_eq_none.mp (by rw [← this]; simp)
      refine ⟨hnone, ?_⟩
      simp only [constructDriver, hany, Bool.false_eq_true, if_false] at h
      rcases hchk : msgIDCheck s op chan id with e | u
      · rw [hchk] at h; exact absurd (congrArg Prod.snd h) (by simp)
      · rw [hchk] at h
        rcases htry : tryToConnect outcomes with e | k
        · rw [htry] at h; exact absurd (congrArg Prod.snd h) (by simp)
        · rw [htry] at h
          have hs' : s' = (setCentralReceiver (storeInfo s name proto op chan id) op chan id).1 :=
            (congrArg Prod.fst h).symm
          rw [hs', setCentralReceiver_instancesInfo]
          simp only [storeInfo]
          exact getAssoc_setAssoc_self _ _ _

theorem msgName_unique_global_witness :
    ((getAssoc exState1.instancesInfo "a").isSome)
    ∧ constructDriver exState1 "CANSender" "a" .receive "other" (some 9) (fun _ => true) =
      (exState1, .error (.valueError "msgName must have a unique value")) := by
  refine ⟨by decide, ?_⟩
  exact (msgName_unique_global exState1 "CANSender" "a" .receive "other" (some 9)
    (fun _ => true)).1 (by decide)

/-- Claim C3: construction attempts `connect()` up to 90 times, sleeping 2
time-units after each failed attempt (`sleeps` counts those failures); if all
90 attempts fail, construction raises `ConnectionError` and the registry —
`instancesInfo`, `channelsOperationsInfo` and `receivedMsgsBuffer` — is
returned exactly as it was; if attempt `k < 90` succeeds first, construction
completes after `k` sleeps and the instance is registered. -/
theorem construction_retry_bounded (s : RegState) (proto name : String) (op : Operation)
    (chan : String) (id : Option Int) (outcomes : Nat → Bool)
    (hname : getAssoc s.instancesInfo name = none)
    (hidok : msgIDCheck s op chan id = .ok ()) :
    ((∀ j, j < 90 → outcomes j = false) →
      constructDriver s proto name op chan id outcomes =
        (s, .error (.connectionError "Unable to establish connection after maximum retries.")))
    ∧ (∀ k, k < 90 → outcomes k = true → (∀ j, j < k → outcomes j = false) →
        ∃ s' m, constructDriver s proto name op chan id outcomes = (s', .ok m) ∧
          m.sleeps = k ∧
          getAssoc s'.instancesInfo name = some ⟨id, proto, chan, op, true, 0⟩) := by
  have hany : s.instancesInfo.any (fun p => decide (p.1 = name)) = false := by
    rw [any_key_eq_isSome, hname]; rfl
  constructor
  · intro hall
    have hloop : tryLoop outcomes 0 90 = none :=
      tryLoop_eq_none outcomes 90 0 (fun j _ hj2 => hall j (by omega))
    have htry : tryToConnect outcomes =
        .error (.connectionError "Unable to establish connection after maximum retries.") := by
      simp [tryToConnect, hloop]
    simp only [constructDriver, hany, Bool.false_eq_true, if_false, hidok, htry]
  · intro k hk90 hk hbefore
    have hloop : tryLoop outcomes 0 90 = some k :=
      tryLoop_eq_some outcomes k hk hbefore 90 0 (Nat.zero_le k) (by omega)
    have htry : tryToConnect outcomes = .ok k := by simp [tryToConnect, hloop]
    refine ⟨(setCentralReceiver (storeInfo s name proto op chan id) op chan id).1,
      ⟨⟨name, op, chan, id, true, 0, none⟩, k,
        (setCentralReceiver (storeInfo s name proto op chan id) op chan id).2⟩,
      by simp only [constructDriver, hany, Bool.false_eq_true, if_false, hidok, htry],
      rfl, ?_⟩
    rw [setCentralReceiver_instancesInfo]
    simp only [storeInfo]
    exact getAssoc_setAssoc_self _ _ _

theorem construction_retry_bounded_witness :
    (getAssoc exEmpty.instancesInfo "enc" = none)
    ∧ msgIDCheck exEmpty .receive "can0" (some 7) = .ok ()
    ∧ constructDriver exEmpty "CANReceiver" "enc" .receive "can0" (some 7)
        (fun _ => false) =
      (exEmpty, .error (.connectionError "Unable to establish connection after maximum retries."))
    ∧ (∃ s' m, constructDriver exEmpty "CANReceiver" "enc" .receive "can0"
        (some 7) (fun j => decide (j = 3)) = (s', .ok m) ∧ m.sleeps = 3 ∧
        getAssoc s'.instancesInfo "enc" =
          some ⟨some 7, "CANReceiver", "can0", .receive, true, 0⟩) := by
  refine ⟨rfl, rfl, ?_, ?_⟩
  · exact (construction_retry_bounded exEmpty "CANReceiver" "enc" .receive "can0" (some 7)
      (fun _ => false) rfl rfl).1 (fun j _ => rfl)
  · exact (construction_retry_bounded exEmpty "CANReceiver" "enc" .receive "can0" (some 7)
      (fun j => decide (j = 3)) rfl rfl).2 3 (by omega) (by decide)
      (fun j hj => by interval_cases j <;> rfl)

/-- Claim C10: while `__pending_message` is set, a `send(msg)` call returns
`None` — neither status 0 nor status 1 — writing nothing to the transport
and changing no registry state; and whenever a send actually runs, the
`finally` clause leaves the pending marker cleared. -/
theorem send_single_flight_guard (threaded : RegState → DriverInst → ThreadedResult)
    (s : RegState) (d : DriverInst) (m : List Nat) (h : d.pending = some m) :
    baseSend threaded s d = ⟨s, d, none, []⟩
    ∧ (∀ s' d', d'.pending = none → (baseSend threaded s' d').drv.pending = none) := by
  constructor
  · simp only [baseSend, h]
  · intro s' d' h'
    simp only [baseSend, h']
    split
    · split <;> rfl
    · rfl

theorem send_single_flight_guard_witness :
    exDrvPending.pending = some [42]
    ∧ baseSend (fun s d => ⟨s, d, 1, []⟩) exEmpty exDrvPending =
        ⟨exEmpty, exDrvPending, none, []⟩ := by
  exact ⟨rfl, (send_single_flight_guard (fun s d => ⟨s, d, 1, []⟩) exEmpty exDrvPending
    [42] rfl).1⟩

/-- Claim C9 (code bug): the CAN width validation the claim describes is
exactly what the source text implements — `setActuatorsCommandsStruct` with
a `CANSender` driver rejects the 16-byte schema "dd" with `MsgLengthError`
and accepts the 5-byte schema "bf", and `_validate_input` rejects
`num_encoders * float_size = 16 > 8` with the length `ValueError` and
accepts `1 * 8` — but the shipped program can never run either validator:
`MsgLengthError` is not a name of base_driver.py, so the module-level
imports of actuator_commands_driver.py (line 9) and encoder_driver.py
(line 12) raise `ImportError` before any configuration code is reachable. -/
theorem can_schema_width_import_bug :
    baseDriverModuleNames.contains "MsgLengthError" = false
    ∧ importActuatorCommandsDriverModule =
        .error (.importError "cannot import name MsgLengthError from hardware.base_driver")
    ∧ importEncoderDriverModule =
        .error (.importError "cannot import name MsgLengthError from hardware.base_driver")
    ∧ (structMsgLen ['d', 'd'] = 16
      ∧ setActuatorsCommandsStruct true ['d', 'd'] =
          .error (.msgLengthError "acutators_commands_struct length exceeds 8 bytes"))
    ∧ (structMsgLen ['b', 'f'] = 5
      ∧ setActuatorsCommandsStruct true ['b', 'f'] = .ok ['b', 'f'])
    ∧ encoderValidateInput "can" 2 8 "little" =
        .error (.valueError "num_encoders * float_size must be less than or equal to 8")
    ∧ encoderValidateInput "can" 1 8 "little" = .ok () := by
  exact ⟨by decide, rfl, rfl, ⟨by decide, rfl⟩, ⟨by decide, rfl⟩, rfl, rfl⟩

/-- Claim C6 (amended): the Serial and SPI dispatch loops run `while True` —
their loop condition is constant and never consults the running flag, so they
keep iterating after `stop()`, and on an I/O exception the loop clears the
channel's buffers and invokes the reconnect policy (resuming when a
reconnect attempt succeeds within the 90-attempt budget, while exhausting the
budget raises `ConnectionError` and kills the dispatcher thread); `stop()`
itself only flips the running flag, in the instance and in `instancesInfo`,
leaving the rest of the registry untouched.  The CAN dispatch loop, by
contrast, re-reads the running flag every iteration, so it exits once
`stop()` has flipped it. -/
theorem receive_loop_stop_behavior (s : RegState) (d : DriverInst) (info : InstanceInfo)
    (hreg : getAssoc s.instancesInfo d.name = some info) :
    (∀ d' : DriverInst, serialLoopGuard d' = true)
    ∧ (∀ d' : DriverInst, spiLoopGuard d' = true)
    ∧ ((stopDriver s d).2.running = false
      ∧ canLoopGuard (stopDriver s d).2 = false
      ∧ (stopDriver s d).1.instancesInfo =
          setAssoc s.instancesInfo d.name { info with running := false }
      ∧ (stopDriver s d).1.channelsOperationsInfo = s.channelsOperationsInfo
      ∧ (stopDriver s d).1.receivedMsgsBuffer = s.receivedMsgsBuffer)
    ∧ (∀ chan selfId idLen,
        serialReceiveStep chan selfId idLen s .ioError = noneAllData s chan)
    ∧ (∀ chan outcomes k, k < 90 → outcomes k = true → (∀ j, j < k → outcomes j = false) →
        serialIoErrorRecovery chan outcomes s = (noneAllData s chan, true))
    ∧ (∀ chan outcomes, (∀ j, j < 90 → outcomes j = false) →
        serialIoErrorRecovery chan outcomes s = (noneAllData s chan, false)) := by
  refine ⟨fun _ => rfl, fun _ => rfl, ?_, fun _ _ _ => rfl, ?_, ?_⟩
  · simp [stopDriver, hreg, canLoopGuard]
  · intro chan outcomes k hk90 hk hbefore
    have hloop : tryLoop outcomes 0 90 = some k :=
      tryLoop_eq_some outcomes k hk hbefore 90 0 (Nat.zero_le k) (by omega)
    simp only [serialIoErrorRecovery, tryToConnect, hloop]
  · intro chan outcomes hall
    have hloop : tryLoop outcomes 0 90 = none :=
      tryLoop_eq_none outcomes 90 0 (fun j _ hj2 => hall j (by omega))
    simp only [serialIoErrorRecovery, tryToConnect, hloop]

theorem receive_loop_stop_behavior_witness :
    getAssoc exCanRecvState.instancesInfo "r" =
      some ⟨some 7, "CANReceiver", "can0", Operation.receive, true, 0⟩
    ∧ serialLoopGuard (stopDriver exCanRecvState exCanRecvDrv).2 = true
    ∧ canLoopGuard (stopDriver exCanRecvState exCanRecvDrv).2 = false := by
  refine ⟨rfl, ?_, ?_⟩
  · exact (receive_loop_stop_behavior exCanRecvState exCanRecvDrv
      ⟨some 7, "CANReceiver", "can0", Operation.receive, true, 0⟩ rfl).1
      (stopDriver exCanRecvState exCanRecvDrv).2
  · exact (receive_loop_stop_behavior exCanRecvState exCanRecvDrv
      ⟨some 7, "CANReceiver", "can0", Operation.receive, true, 0⟩ rfl).2.2.1.2.1

/-- Claim C6 counterexample: the claim asserts the dispatch loop of EVERY
receiving channel never consults the running flag and keeps running after
`stop()`; but the CAN dispatch loop's condition is
`while getattr(self, '_BaseDriver__isRunning', True)`, so after `stop()` on
this concrete CAN receiver the loop guard is false and the loop exits. -/
theorem can_loop_exits_after_stop_counterexample :
    (stopDriver exCanRecvState exCanRecvDrv).2.running = false
    ∧ ¬ canLoopGuard (stopDriver exCanRecvState exCanRecvDrv).2 = true := by
  exact ⟨by decide, by decide⟩

theorem bumpReceivedInBuffer_buffers (s : RegState) (chan : String) (n : Nat) :
    (bumpReceivedInBuffer s chan n).receivedMsgsBuffer = s.receivedMsgsBuffer := by
  unfold bumpReceivedInBuffer
  cases getAssoc s.channelsOperationsInfo chan <;> rfl

theorem serialCountAndClean_buffers (s : RegState) (chan : String) (key : Option Int)
    (n : Nat) :
    (serialCountAndClean s chan key n).receivedMsgsBuffer = s.receivedMsgsBuffer := by
  unfold serialCountAndClean
  split
  · rfl
  · split
    · rfl
    · rw [bumpReceivedInBuffer_buffers]

theorem canCountAndBump_buffers (s : RegState) (chan : String) (selfId : Option Int)
    (n : Nat) :
    (canCountAndBump s chan selfId n).receivedMsgsBuffer = s.receivedMsgsBuffer := by
  unfold canCountAndBump
  split
  · rfl
  · split
    · rfl
    · rfl

theorem bufferEntryOf_congr_rb (s t : RegState) (chan : String) (k : Option Int)
    (h : t.receivedMsgsBuffer = s.receivedMsgsBuffer) :
    bufferEntryOf t chan k = bufferEntryOf s chan k := by
  simp only [bufferEntryOf, h]

/-- A Serial dispatch step that handles a line whose id header does not parse
to `k` leaves the buffer entry of `k` on its channel unchanged. -/
theorem serialHandleReceived_entry_ne (s : RegState) (chan : String) (selfId : Option Int)
    (idLen : Nat) (read : List Nat) (more : List (List Nat)) (k : Option Int)
    (hlen : idLen ≠ 0)
    (hne : some (Int.ofNat (bytesToNatLE (read.take idLen))) ≠ k) :
    bufferEntryOf (serialHandleReceived s chan selfId idLen read more) chan k =
      bufferEntryOf s chan k := by
  simp only [serialHandleReceived]
  rcases hread : read.isEmpty with _ | _
  · simp only [hread, Bool.false_eq_true, if_false, if_pos hlen]
    rcases hacc : accumulateMsg (bytesToNatLE ((read.drop idLen).take 1) + 1)
        (read.drop (idLen + 1)) more with _ | msg
    · rfl
    · rcases hgb : getAssoc s.receivedMsgsBuffer chan with _ | buf0
      · rfl
      · by_cases hkey : (getAssoc buf0 (some (Int.ofNat (bytesToNatLE (read.take idLen))))).isSome
        · simp only [hkey, if_true]
          rw [bufferEntryOf_congr_rb _ _ chan k (serialCountAndClean_buffers _ _ _ _)]
          simp only [bufferEntryOf, getAssoc_setAssoc_self, hgb]
          exact getAssoc_setAssoc_ne _ _ _ _ (Ne.symm hne)
        · simp only [hkey, Bool.false_eq_true, if_false]
          exact bufferEntryOf_congr_rb _ _ chan k (bumpReceivedInBuffer_buffers _ _ _)
  · simp only [hread, if_true]

/-- A CAN dispatch step for a frame whose arbitration id is not `k` leaves
the buffer entry of `k` on its channel unchanged. -/
theorem canHandleMessage_entry_ne (s : RegState) (chan : String) (selfId : Option Int)
    (arbId : Int) (data : List Nat) (k : Option Int) (hne : k ≠ some arbId) :
    bufferEntryOf (canHandleMessage s chan selfId arbId data) chan k =
      bufferEntryOf s chan k := by
  simp only [canHandleMessage]
  by_cases hsid : some arbId = selfId
  · rw [if_pos hsid]
    rcases hgb : getAssoc s.receivedMsgsBuffer chan with _ | buf0
    · rfl
    · rw [bufferEntryOf_congr_rb _ _ chan k (canCountAndBump_buffers _ _ _ _)]
      simp only [bufferEntryOf, getAssoc_setAssoc_self, hgb]
      exact getAssoc_setAssoc_ne _ _ _ _ (fun hkk => hne (hkk.trans hsid.symm))
  · rw [if_neg hsid]

/-- Claim C5: after a transport I/O failure on a receiving channel (Serial or
CAN — `__none_all_data` runs before the reconnect that follows a connection
loss), every identifier that has an entry in that channel's buffer reads
`None`, even if it held a payload; and an entry that reads `None` stays
`None` under any subsequent dispatch step that does not carry a valid frame
for that very identifier. -/
theorem buffer_invalidation_on_io_failure (s : RegState) (chan : String)
    (buf : List (Option Int × Option (List Nat)))
    (hbuf : getAssoc s.receivedMsgsBuffer chan = some buf) :
    (∀ selfId idLen k, (getAssoc buf k).isSome →
      bufferEntryOf (serialReceiveStep chan selfId idLen s .ioError) chan k = some none)
    ∧ (∀ selfId k, (getAssoc buf k).isSome →
      bufferEntryOf (canReceiveStep chan selfId s .ioError) chan k = some none)
    ∧ (∀ selfId idLen read more k, idLen ≠ 0 →
      bufferEntryOf s chan k = some none →
      some (Int.ofNat (bytesToNatLE (read.take idLen))) ≠ k →
      bufferEntryOf (serialReceiveStep chan selfId idLen s (.line read more)) chan k = some none)
    ∧ (∀ selfId a dt k,
      bufferEntryOf s chan k = some none → k ≠ some a →
      bufferEntryOf (canReceiveStep chan selfId s (.frame a dt)) chan k = some none)
    ∧ (∀ selfId k, bufferEntryOf s chan k = some none →
      bufferEntryOf (canReceiveStep chan selfId s .timeout) chan k = some none) := by
  have hclear : ∀ k, (getAssoc buf k).isSome →
      bufferEntryOf (noneAllData s chan) chan k = some none := by
    intro k hk
    simp only [noneAllData, hbuf, bufferEntryOf, getAssoc_setAssoc_self,
      getAssoc_map_const_none]
    rcases hg : getAssoc buf k with _ | v
    · rw [hg] at hk; exact absurd hk (by simp)
    · rfl
  refine ⟨fun selfId idLen k hk => hclear k hk, fun selfId k hk => hclear k hk, ?_, ?_,
    fun selfId k hk => hk⟩
  · intro selfId idLen read more k hlen hent hne
    rw [serialReceiveStep, serialHandleReceived_entry_ne s chan selfId idLen read more k hlen hne]
    exact hent
  · intro selfId a dt k hent hne
    rw [canReceiveStep, canHandleMessage_entry_ne s chan selfId a dt k hne]
    exact hent

theorem buffer_invalidation_on_io_failure_witness :
    getAssoc exCanRecvState.receivedMsgsBuffer "can0" = some [(some 7, some [9, 9])]
    ∧ bufferEntryOf exCanRecvState "can0" (some 7) = some (some [9, 9])
    ∧ bufferEntryOf (canReceiveStep "can0" (some 7) exCanRecvState .ioError) "can0" (some 7) =
        some none
    ∧ bufferEntryOf (canReceiveStep "can0" (some 7)
        (canReceiveStep "can0" (some 7) exCanRecvState .ioError) (.frame 8 [1])) "can0"
        (some 7) = some none := by
  refine ⟨rfl, rfl, ?_, ?_⟩
  · exact (buffer_invalidation_on_io_failure exCanRecvState "can0" [(some 7, some [9, 9])]
      rfl).2.1 (some 7) (some 7) (by decide)
  · exact (buffer_invalidation_on_io_failure
      (canReceiveStep "can0" (some 7) exCanRecvState .ioError) "can0" [(some 7, none)]
      (by decide)).2.2.2.1 (some 7) 8 [1] (some 7) (by decide) (by decide)

theorem setCentralReceiver_no_restart (s : RegState) (op : Operation) (chan : String)
    (id : Option Int) (hsome : (getAssoc s.receivedMsgsBuffer chan).isSome) :
    (setCentralReceiver s op chan id).2 = false := by
  unfold setCentralReceiver
  cases op with
  | send => rfl
  | receive =>
    rcases hg : getAssoc s.receivedMsgsBuffer chan with _ | buf
    · rw [hg] at hsome; exact absurd hsome (by simp)
    · simp only [hg]

/-- Claim C7 (Scenario 3): a receiving construction starts a dispatcher
thread only when the channel's buffer does not exist yet, so two Serial
receivers on channel "ch" with identifiers 0x10 and 0x11 start exactly one
thread — at the first construction, and never again once the channel's
buffer exists (it is never deleted, so the thread is never restarted); a
wire frame carrying identifier 0x10 overwrites only the 0x10 buffer entry
and increments only its counter, leaving 0x11 untouched; a frame whose
identifier (0x13) matches no registered receiver is dropped: no buffer entry
and no per-identifier counter changes. -/
theorem serial_two_receivers_dispatch :
    (∀ s op chan id, (getAssoc s.receivedMsgsBuffer chan).isSome →
      (setCentralReceiver s op chan id).2 = false)
    ∧ (∃ m, (constructDriver exEmpty "SerialReceiver" "r1" .receive "ch" (some 16)
        (fun _ => true)).2 = .ok m ∧ m.threadStarted = true)
    ∧ (∃ m, (constructDriver scen3s1 "SerialReceiver" "r2" .receive "ch" (some 17)
        (fun _ => true)).2 = .ok m ∧ m.threadStarted = false)
    ∧ (bufferEntryOf scen3s2 "ch" (some 16) = some none
      ∧ bufferEntryOf scen3s2 "ch" (some 17) = some none)
    ∧ (bufferEntryOf (serialHandleReceived scen3s2 "ch" (some 16) 1 [16, 1, 171, 10] [])
          "ch" (some 16) = some (some [171])
      ∧ bufferEntryOf (serialHandleReceived scen3s2 "ch" (some 16) 1 [16, 1, 171, 10] [])
          "ch" (some 17) = some none
      ∧ receiveCountOf (serialHandleReceived scen3s2 "ch" (some 16) 1 [16, 1, 171, 10] [])
          "ch" (some 16) = some 1
      ∧ receiveCountOf (serialHandleReceived scen3s2 "ch" (some 16) 1 [16, 1, 171, 10] [])
          "ch" (some 17) = some 0)
    ∧ ((serialHandleReceived scen3s2 "ch" (some 16) 1 [19, 1, 205, 10] []).receivedMsgsBuffer
          = scen3s2.receivedMsgsBuffer
      ∧ receiveCountOf (serialHandleReceived scen3s2 "ch" (some 16) 1 [19, 1, 205, 10] [])
          "ch" (some 16) = some 0
      ∧ receiveCountOf (serialHandleReceived scen3s2 "ch" (some 16) 1 [19, 1, 205, 10] [])
          "ch" (some 17) = some 0
      ∧ receiveCountOf (serialHandleReceived scen3s2 "ch" (some 16) 1 [19, 1, 205, 10] [])
          "ch" (some 19) = none) := by
  refine ⟨setCentralReceiver_no_restart,
    ⟨⟨⟨"r1", .receive, "ch", some 16, true, 0, none⟩, 0, true⟩, rfl, rfl⟩,
    ⟨⟨⟨"r2", .receive, "ch", some 17, true, 0, none⟩, 0, false⟩, rfl, rfl⟩,
    ⟨by decide, by decide⟩, ⟨by decide, by decide, by decide, by decide⟩,
    ⟨by decide, by decide, by decide, by decide⟩⟩

theorem serial_two_receivers_dispatch_witness :
    ((getAssoc scen3s2.receivedMsgsBuffer "ch").isSome
      ∧ (setCentralReceiver scen3s2 .receive "ch" (some 18)).2 = false)
    ∧ bufferEntryOf (serialHandleReceived scen3s2 "ch" (some 16) 1 [16, 1, 171, 10] [])
        "ch" (some 17) = some none := by
  refine ⟨⟨by decide, ?_⟩, ?_⟩
  · exact serial_two_receivers_dispatch.1 scen3s2 .receive "ch" (some 18) (by decide)
  · exact serial_two_receivers_dispatch.2.2.2.2.1.2.1

/-- Claim C8 (Scenario 1): a Serial sender with identifier width 1 and the
length header frames `send(b"\x2a")` as `[id][0x01][0x2a][0x0a]` — exactly
that byte string is written to the port on the first successful write — and
a Serial receiver with the same identifier width that reads this frame
stores payload `b"\x2a"` in the buffer entry of that identifier. -/
theorem serial_frame_roundtrip (i : Int) (h0 : 0 ≤ i) (h256 : i < 256)
    (s : RegState) (d : DriverInst) (writeOk : Nat → Bool) (fuel : Nat)
    (ci : ChannelInfo)
    (hid : d.id = some i) (hpend : d.pending = none)
    (hchan : getAssoc s.channelsOperationsInfo d.channel = some ci)
    (hok : writeOk 0 = true)
    (s' : RegState) (chan' : String) (selfId' : Option Int)
    (buf' : List (Option Int × Option (List Nat)))
    (hbuf' : getAssoc s'.receivedMsgsBuffer chan' = some buf')
    (hkey' : (getAssoc buf' (some i)).isSome) :
    serialFrame (some i) 1 [42] = some [i.toNat, 1, 42, 10]
    ∧ (serialSend 1 [42] writeOk (fuel + 1) s d).written = [[i.toNat, 1, 42, 10]]
    ∧ bufferEntryOf (serialHandleReceived s' chan' selfId' 1 [i.toNat, 1, 42, 10] []) chan'
        (some i) = some (some [42]) := by
  have htn : i.toNat < 256 := by omega
  have hframe : serialFrame (some i) 1 [42] = some [i.toNat, 1, 42, 10] := by
    simp only [serialFrame]
    rw [if_neg (by decide : ¬(1 = 0))]
    rw [if_pos ⟨h0, by simpa using htn, by decide⟩]
    simp [natToBytesLE, Nat.mod_eq_of_lt htn]
  have hw : (serialThreadedSend 1 [42] writeOk 0 (fuel + 1) s d).written =
        [[i.toNat, 1, 42, 10]]
      ∧ (serialThreadedSend 1 [42] writeOk 0 (fuel + 1) s d).status = 0 := by
    constructor <;> simp only [serialThreadedSend, hok, if_true, hid, hframe, hchan]
  have hkeyeq : Int.ofNat i.toNat = i := Int.toNat_of_nonneg h0
  refine ⟨hframe, ?_, ?_⟩
  · simp only [serialSend, baseSend, hpend]
    rw [if_pos hw.2]
    rcases hinc : incrementMsgCount (serialThreadedSend 1 [42] writeOk 0 (fuel + 1) s d).state
        (serialThreadedSend 1 [42] writeOk 0 (fuel + 1) s d).drv with ⟨s2, d2⟩ | ⟨s2, d2⟩ <;>
      simp only [hinc] <;> exact hw.1
  · have h1 : serialHandleReceived s' chan' selfId' 1 [i.toNat, 1, 42, 10] [] =
        serialCountAndClean { s' with receivedMsgsBuffer := setAssoc s'.receivedMsgsBuffer chan' (setAssoc buf' (some i) (some [42])) } chan' (some i) 3 := by
      have hsup : i ⊔ 0 = i := sup_eq_left.mpr h0
      simp [serialHandleReceived, bytesToNatLE, accumulateMsg, hbuf', hkeyeq, hsup, hkey']
    rw [h1, bufferEntryOf_congr_rb _ _ chan' (some i) (serialCountAndClean_buffers _ _ _ _)]
    simp [bufferEntryOf, getAssoc_setAssoc_self]

theorem serial_frame_roundtrip_witness :
    (0 ≤ (16 : Int) ∧ (16 : Int) < 256
      ∧ getAssoc scen3s2.channelsOperationsInfo "ch" =
          some ⟨[(some 16, 0), (some 17, 0)], [], 0, 0⟩
      ∧ getAssoc scen3s2.receivedMsgsBuffer "ch" = some [(some 16, none), (some 17, none)])
    ∧ serialFrame (some 16) 1 [42] = some [16, 1, 42, 10]
    ∧ (serialSend 1 [42] (fun _ => true) 1 scen3s2
        ⟨"tx", .send, "ch", some 16, true, 0, none⟩).written = [[16, 1, 42, 10]]
    ∧ bufferEntryOf (serialHandleReceived scen3s2 "ch" (some 16) 1 [16, 1, 42, 10] []) "ch"
        (some 16) = some (some [42]) := by
  refine ⟨⟨by decide, by decide, by decide, by decide⟩, ?_, ?_, ?_⟩
  · exact (serial_frame_roundtrip 16 (by decide) (by decide) scen3s2
      ⟨"tx", .send, "ch", some 16, true, 0, none⟩ (fun _ => true) 0
      ⟨[(some 16, 0), (some 17, 0)], [], 0, 0⟩ rfl rfl (by decide) rfl
      scen3s2 "ch" (some 16) [(some 16, none), (some 17, none)] (by decide) (by decide)).1
  · exact (serial_frame_roundtrip 16 (by decide) (by decide) scen3s2
      ⟨"tx", .send, "ch", some 16, true, 0, none⟩ (fun _ => true) 0
      ⟨[(some 16, 0), (some 17, 0)], [], 0, 0⟩ rfl rfl (by decide) rfl
      scen3s2 "ch" (some 16) [(some 16, none), (some 17, none)] (by decide) (by decide)).2.1
  · exact (serial_frame_roundtrip 16 (by decide) (by decide) scen3s2
      ⟨"tx", .send, "ch", some 16, true, 0, none⟩ (fun _ => true) 0
      ⟨[(some 16, 0), (some 17, 0)], [], 0, 0⟩ rfl rfl (by decide) rfl
      scen3s2 "ch" (some 16) [(some 16, none), (some 17, none)] (by decide) (by decide)).2.2

theorem sendCountOf_inv (s : RegState) (ch : String) (id : Option Int) (c : Nat)
    (h : sendCountOf s ch id = some c) :
    ∃ ci, getAssoc s.channelsOperationsInfo ch = some ci ∧ getAssoc ci.sendCounts id = some c := by
  unfold sendCountOf at h
  rcases hg : getAssoc s.channelsOperationsInfo ch with _ | ci
  · simp only [hg] at h
    cases h
  · simp only [hg] at h
    exact ⟨ci, rfl, h⟩

theorem sendCountOf_setAssoc_same (s : RegState) (chan : String) (ci cj : ChannelInfo)
    (hc : getAssoc s.channelsOperationsInfo chan = some ci)
    (hsc : cj.sendCounts = ci.sendCounts) (ch : String) (id : Option Int) :
    sendCountOf { s with channelsOperationsInfo := setAssoc s.channelsOperationsInfo chan cj }
      ch id = sendCountOf s ch id := by
  by_cases hch : ch = chan
  · subst hch
    simp only [sendCountOf, getAssoc_setAssoc_self, hc, hsc]
  · simp only [sendCountOf, getAssoc_setAssoc_ne _ _ _ _ hch]

theorem incrementMsgCount_send_ok (s : RegState) (d : DriverInst) (ci : ChannelInfo)
    (c : Nat) (info : InstanceInfo)
    (hop : d.operation = .send)
    (hchan : getAssoc s.channelsOperationsInfo d.channel = some ci)
    (hcount : getAssoc ci.sendCounts d.id = some c)
    (hinst : getAssoc s.instancesInfo d.name = some info) :
    ∃ s2, incrementMsgCount s d = .ok (s2, { d with numOfMsgs := d.numOfMsgs + 1 })
      ∧ sendCountOf s2 d.channel d.id = some (c + 1)
      ∧ getAssoc s2.instancesInfo d.name = some { info with numOfMsgs := d.numOfMsgs + 1 }
      ∧ s2.receivedMsgsBuffer = s.receivedMsgsBuffer := by
  refine ⟨⟨setAssoc s.instancesInfo d.name { info with numOfMsgs := d.numOfMsgs + 1 },
      setAssoc s.channelsOperationsInfo d.channel
        { ci with sendCounts := setAssoc ci.sendCounts d.id (c + 1) },
      s.receivedMsgsBuffer⟩, ?_, ?_, ?_, rfl⟩
  · simp only [incrementMsgCount, hop, hchan, hcount, hinst]
  · simp only [sendCountOf, getAssoc_setAssoc_self]
  · simp only [getAssoc_setAssoc_self]

theorem serialThreadedSend_invariants (idLen : Nat) (data : List Nat) (writeOk : Nat → Bool) :
    ∀ fuel i s d,
      (serialThreadedSend idLen data writeOk i fuel s d).drv = d
      ∧ (serialThreadedSend idLen data writeOk i fuel s d).state.instancesInfo = s.instancesInfo
      ∧ (∀ ch id, sendCountOf (serialThreadedSend idLen data writeOk i fuel s d).state ch id =
          sendCountOf s ch id)
      ∧ ((serialThreadedSend idLen data writeOk i fuel s d).status = 0
        ∨ (serialThreadedSend idLen data writeOk i fuel s d).status = 1) := by
  intro fuel
  induction fuel with
  | zero => intro i s d; exact ⟨rfl, rfl, fun _ _ => rfl, Or.inr rfl⟩
  | succ n ih =>
    intro i s d
    by_cases hwk : writeOk i = true
    · rcases hf : serialFrame d.id idLen data with _ | payload
      · simpa only [serialThreadedSend, hwk, if_true, hf] using ih (i + 1) s d
      · rcases hc : getAssoc s.channelsOperationsInfo d.channel with _ | ci
        · simpa only [serialThreadedSend, hwk, if_true, hf, hc] using ih (i + 1) s d
        · simp only [serialThreadedSend, hwk, if_true, hf, hc]
          refine ⟨by trivial, by trivial, ?_, Or.inl (by trivial)⟩
          intro ch id
          refine sendCountOf_setAssoc_same s d.channel ci _ hc ?_ ch id
          by_cases h64 : 64 ≤ ci.sentInBuffer <;> simp [h64]
    · simpa only [serialThreadedSend, hwk, Bool.false_eq_true, if_false] using ih (i + 1) s d

theorem canThreadedSend_characterization (data : List Nat) (writeOk : Nat → Bool)
    (ci : ChannelInfo) (c : Nat) (info : InstanceInfo) :
    ∀ fuel i (s : RegState) (d : DriverInst),
      d.operation = .send →
      getAssoc s.channelsOperationsInfo d.channel = some ci →
      getAssoc ci.sendCounts d.id = some c →
      getAssoc s.instancesInfo d.name = some info →
      ((canThreadedSend data writeOk i fuel s d).status = 0
        ∧ (canThreadedSend data writeOk i fuel s d).drv = { d with numOfMsgs := d.numOfMsgs + 1 }
        ∧ sendCountOf (canThreadedSend data writeOk i fuel s d).state d.channel d.id =
            some (c + 1)
        ∧ getAssoc (canThreadedSend data writeOk i fuel s d).state.instancesInfo d.name =
            some { info with numOfMsgs := d.numOfMsgs + 1 })
      ∨ canThreadedSend data writeOk i fuel s d = ⟨s, d, 1, []⟩ := by
  intro fuel
  induction fuel with
  | zero => intro i s d _ _ _ _; exact Or.inr rfl
  | succ n ih =>
    intro i s d hop hchan hcount hinst
    by_cases hwk : writeOk i = true
    · obtain ⟨s2, hinc, hcnt2, hinst2, hrb2⟩ :=
        incrementMsgCount_send_ok
          { s with channelsOperationsInfo := setAssoc s.channelsOperationsInfo d.channel { ci with sentInBuffer := ci.sentInBuffer + data.length } }
          d { ci with sentInBuffer := ci.sentInBuffer + data.length } c info hop
          (getAssoc_setAssoc_self _ _ _) hcount hinst
      left
      simp only [canThreadedSend, hwk, if_true, hchan, hinc]
      exact ⟨by trivial, by trivial, hcnt2, hinst2⟩
    · simp only [canThreadedSend, hwk, Bool.false_eq_true, if_false]
      exact ih (i + 1) s d hop hchan hcount hinst

theorem spiCleanBuffer_sendCounts (ci : ChannelInfo) :
    (spiCleanBuffer ci).sendCounts = ci.sendCounts := by
  unfold spiCleanBuffer
  by_cases h1 : 4096 ≤ ci.sentInBuffer <;> by_cases h2 : 4096 ≤ ci.receivedInBuffer <;>
    simp [h1, h2]

theorem getAssoc_setChannel_self (s : RegState) (chan : String) (ci : ChannelInfo) :
    getAssoc (setChannel s chan ci).channelsOperationsInfo chan = some ci :=
  getAssoc_setAssoc_self _ _ _

theorem sendCountOf_setChannel (s : RegState) (chan : String) (ci cj : ChannelInfo)
    (hc : getAssoc s.channelsOperationsInfo chan = some ci)
    (hsc : cj.sendCounts = ci.sendCounts) (ch : String) (id : Option Int) :
    sendCountOf (setChannel s chan cj) ch id = sendCountOf s ch id := by
  by_cases hch : ch = chan
  · subst hch
    simp only [sendCountOf, setChannel, getAssoc_setAssoc_self, hc, hsc]
  · simp only [sendCountOf, setChannel, getAssoc_setAssoc_ne _ _ _ _ hch]

theorem spiThreadedSendLoop_invariants (payload : List Nat) (writeOk : Nat → Bool) :
    ∀ fuel i s d,
      (spiThreadedSendLoop payload writeOk i fuel s d).drv = d
      ∧ (spiThreadedSendLoop payload writeOk i fuel s d).state.instancesInfo = s.instancesInfo
      ∧ (∀ ch id, sendCountOf (spiThreadedSendLoop payload writeOk i fuel s d).state ch id =
          sendCountOf s ch id)
      ∧ (spiThreadedSendLoop payload writeOk i fuel s d).status = 1 := by
  intro fuel
  induction fuel with
  | zero => intro i s d; exact ⟨rfl, rfl, fun _ _ => rfl, rfl⟩
  | succ n ih =>
    intro i s d
    rcases hc : getAssoc s.channelsOperationsInfo d.channel with _ | ci
    · simpa only [spiThreadedSendLoop, hc] using ih (i + 1) s d
    · by_cases hwk : writeOk i = true
      · simp only [spiThreadedSendLoop, hc, hwk, if_true, getAssoc_setChannel_self]
        obtain ⟨hdrv, hii, hcnt, hst⟩ := ih (i + 1)
          (setChannel (setChannel s d.channel (spiCleanBuffer ci)) d.channel
            { spiCleanBuffer ci with
              sentInBuffer := (spiCleanBuffer ci).sentInBuffer + payload.length }) d
        refine ⟨hdrv, hii, ?_, hst⟩
        intro ch id
        exact (hcnt ch id).trans
          ((sendCountOf_setChannel (setChannel s d.channel (spiCleanBuffer ci)) d.channel
              (spiCleanBuffer ci)
              { spiCleanBuffer ci with
                sentInBuffer := (spiCleanBuffer ci).sentInBuffer + payload.length }
              (getAssoc_setChannel_self _ _ _) rfl ch id).trans
            (sendCountOf_setChannel s d.channel ci (spiCleanBuffer ci) hc
              (spiCleanBuffer_sendCounts ci) ch id))
      · simp only [spiThreadedSendLoop, hc, hwk, Bool.false_eq_true, if_false]
        obtain ⟨hdrv, hii, hcnt, hst⟩ :=
          ih (i + 1) (setChannel s d.channel (spiCleanBuffer ci)) d
        refine ⟨hdrv, hii, ?_, hst⟩
        intro ch id
        exact (hcnt ch id).trans (sendCountOf_setChannel s d.channel ci (spiCleanBuffer ci) hc
          (spiCleanBuffer_sendCounts ci) ch id)

/-- Claim C4 (amended): for a send(payload) call that passes the
single-flight guard on a registered instance, if the call returns the
success code 0 then the per-(channel, operation, identifier) frame counter
and the instance's message count are incremented exactly once for Serial and
SPI senders, but twice for CAN senders — `CANSender.threaded_send` already
performs the increment itself before `BaseDriver.send` increments again on
the 0 status; if the call returns the failure code 1, neither counter
changes. -/
theorem send_counter_increment_per_transport
    (s : RegState) (d : DriverInst) (ci : ChannelInfo) (c : Nat) (info : InstanceInfo)
    (hop : d.operation = .send) (hpend : d.pending = none)
    (hchan : getAssoc s.channelsOperationsInfo d.channel = some ci)
    (hcount : getAssoc ci.sendCounts d.id = some c)
    (hinst : getAssoc s.instancesInfo d.name = some info) :
    (∀ idLen data writeOk fuel,
      ((serialSend idLen data writeOk fuel s d).status = some 0 →
        sendCountOf (serialSend idLen data writeOk fuel s d).state d.channel d.id = some (c + 1)
        ∧ (serialSend idLen data writeOk fuel s d).drv.numOfMsgs = d.numOfMsgs + 1)
      ∧ ((serialSend idLen data writeOk fuel s d).status = some 1 →
        sendCountOf (serialSend idLen data writeOk fuel s d).state d.channel d.id = some c
        ∧ (serialSend idLen data writeOk fuel s d).drv.numOfMsgs = d.numOfMsgs))
    ∧ (∀ data writeOk fuel,
      ((canSend data writeOk fuel s d).status = some 0 →
        sendCountOf (canSend data writeOk fuel s d).state d.channel d.id = some (c + 2)
        ∧ (canSend data writeOk fuel s d).drv.numOfMsgs = d.numOfMsgs + 2)
      ∧ ((canSend data writeOk fuel s d).status = some 1 →
        sendCountOf (canSend data writeOk fuel s d).state d.channel d.id = some c
        ∧ (canSend data writeOk fuel s d).drv.numOfMsgs = d.numOfMsgs))
    ∧ (∀ idLen lenLen data writeOk fuel,
      ((spiSend idLen lenLen data writeOk fuel s d).status = some 0 →
        sendCountOf (spiSend idLen lenLen data writeOk fuel s d).state d.channel d.id =
          some (c + 1)
        ∧ (spiSend idLen lenLen data writeOk fuel s d).drv.numOfMsgs = d.numOfMsgs + 1)
      ∧ ((spiSend idLen lenLen data writeOk fuel s d).status = some 1 →
        sendCountOf (spiSend idLen lenLen data writeOk fuel s d).state d.channel d.id = some c
        ∧ (spiSend idLen lenLen data writeOk fuel s d).drv.numOfMsgs = d.numOfMsgs)) := by
  have hsc : sendCountOf s d.channel d.id = some c := by
    simp only [sendCountOf, hchan, hcount]
  refine ⟨?_, ?_, ?_⟩
  · intro idLen data writeOk fuel
    obtain ⟨hdrv, hii, hcnt, hstat⟩ := serialThreadedSend_invariants idLen data writeOk fuel 0 s d
    have hscR : sendCountOf (serialThreadedSend idLen data writeOk 0 fuel s d).state
        d.channel d.id = some c := (hcnt d.channel d.id).trans hsc
    rcases hstat with h0s | h1s
    · obtain ⟨ciR, hchanR, hcountR⟩ := sendCountOf_inv _ _ _ _ hscR
      obtain ⟨s2, hinc, hcnt2, hinst2, hrb2⟩ :=
        incrementMsgCount_send_ok (serialThreadedSend idLen data writeOk 0 fuel s d).state
          (serialThreadedSend idLen data writeOk 0 fuel s d).drv ciR c info
          (by rw [hdrv]; exact hop) (by rw [hdrv]; exact hchanR)
          (by rw [hdrv]; exact hcountR) (by rw [hdrv, hii]; exact hinst)
      have hout : serialSend idLen data writeOk fuel s d =
          ⟨s2, { (serialThreadedSend idLen data writeOk 0 fuel s d).drv with
              numOfMsgs := (serialThreadedSend idLen data writeOk 0 fuel s d).drv.numOfMsgs + 1,
              pending := none }, some 0,
            (serialThreadedSend idLen data writeOk 0 fuel s d).written⟩ := by
        simp [serialSend, baseSend, hpend, h0s, hinc]
      constructor
      · intro _
        rw [hout]
        rw [hdrv] at hcnt2
        exact ⟨hcnt2, by simp [hdrv]⟩
      · intro hbad
        rw [hout] at hbad
        simp at hbad
    · have hout : serialSend idLen data writeOk fuel s d =
          ⟨(serialThreadedSend idLen data writeOk 0 fuel s d).state,
            { (serialThreadedSend idLen data writeOk 0 fuel s d).drv with pending := none },
            some 1, (serialThreadedSend idLen data writeOk 0 fuel s d).written⟩ := by
        simp [serialSend, baseSend, hpend, h1s]
      constructor
      · intro hbad
        rw [hout] at hbad
        simp at hbad
      · intro _
        rw [hout]
        exact ⟨hscR, by simp [hdrv]⟩
  · intro data writeOk fuel
    rcases canThreadedSend_characterization data writeOk ci c info fuel 0 s d hop hchan
        hcount hinst with ⟨h0s, hdrv, hcnt1, hinst1⟩ | heq
    · obtain ⟨ciR, hchanR, hcountR⟩ := sendCountOf_inv _ _ _ _ hcnt1
      obtain ⟨s2, hinc, hcnt2, hinst2, hrb2⟩ :=
        incrementMsgCount_send_ok (canThreadedSend data writeOk 0 fuel s d).state
          (canThreadedSend data writeOk 0 fuel s d).drv ciR (c + 1)
          { info with numOfMsgs := d.numOfMsgs + 1 }
          (by rw [hdrv]; exact hop) (by rw [hdrv]; exact hchanR)
          (by rw [hdrv]; exact hcountR) (by rw [hdrv]; exact hinst1)
      have hout : canSend data writeOk fuel s d =
          ⟨s2, { (canThreadedSend data writeOk 0 fuel s d).drv with
              numOfMsgs := (canThreadedSend data writeOk 0 fuel s d).drv.numOfMsgs + 1,
              pending := none }, some 0, (canThreadedSend data writeOk 0 fuel s d).written⟩ := by
        simp [canSend, baseSend, hpend, h0s, hinc]
      constructor
      · intro _
        rw [hout]
        rw [hdrv] at hcnt2
        exact ⟨hcnt2, by simp [hdrv]⟩
      · intro hbad
        rw [hout] at hbad
        simp at hbad
    · have hout : canSend data writeOk fuel s d = ⟨s, { d with pending := none }, some 1, []⟩ := by
        simp [canSend, baseSend, hpend, heq]
      constructor
      · intro hbad
        rw [hout] at hbad
        simp at hbad
      · intro _
        rw [hout]
        exact ⟨hsc, rfl⟩
  · intro idLen lenLen data writeOk fuel
    rcases hf : spiFrame d.id idLen lenLen data with _ | payload
    · have hout : spiSend idLen lenLen data writeOk fuel s d =
          ⟨s, { d with pending := none }, some 1, []⟩ := by
        simp [spiSend, hpend, hf]
      constructor
      · intro hbad
        rw [hout] at hbad
        simp at hbad
      · intro _
        rw [hout]
        exact ⟨hsc, rfl⟩
    · obtain ⟨hdrv, hii, hcnt, hstat⟩ := spiThreadedSendLoop_invariants payload writeOk fuel 0 s d
      have hout : spiSend idLen lenLen data writeOk fuel s d =
          ⟨(spiThreadedSendLoop payload writeOk 0 fuel s d).state,
            { (spiThreadedSendLoop payload writeOk 0 fuel s d).drv with pending := none },
            some 1, (spiThreadedSendLoop payload writeOk 0 fuel s d).written⟩ := by
        simp [spiSend, baseSend, hpend, hf, hstat]
      constructor
      · intro hbad
        rw [hout] at hbad
        simp at hbad
      · intro _
        rw [hout]
        exact ⟨(hcnt d.channel d.id).trans hsc, by simp [hdrv]⟩

/-- Claim C4 counterexample: on this concrete CAN sender, a send whose
transport write succeeds returns the success code 0, yet the
per-(channel, operation, identifier) frame counter ends at 2 and the
instance message count at 2 — incremented twice, not exactly once,
because `CANSender.threaded_send` already ran
`_BaseDriver__increment_msg_count` before `BaseDriver.send` incremented
again on the 0 status. -/
theorem can_send_double_increment_counterexample :
    (canSend [1, 2] (fun _ => true) 5 exCanState exCanDrv).status = some 0
    ∧ sendCountOf (canSend [1, 2] (fun _ => true) 5 exCanState exCanDrv).state "can0"
        (some 3) = some 2
    ∧ (canSend [1, 2] (fun _ => true) 5 exCanState exCanDrv).drv.numOfMsgs = 2
    ∧ sendCountOf (canSend [1, 2] (fun _ => true) 5 exCanState exCanDrv).state "can0"
        (some 3) ≠ some 1 := by
  exact ⟨by decide, by decide, by decide, by decide⟩

theorem send_counter_increment_per_transport_witness :
    (exCanDrv.operation = .send ∧ exCanDrv.pending = none
      ∧ getAssoc exCanState.channelsOperationsInfo "can0" = some exCanCh
      ∧ getAssoc exCanCh.sendCounts (some 3) = some 0
      ∧ getAssoc exCanState.instancesInfo "m" = some exCanInfo)
    ∧ (sendCountOf (serialSend 1 [42] (fun _ => true) 1 exCanState exCanDrv).state "can0"
          (some 3) = some 1
      ∧ (serialSend 1 [42] (fun _ => true) 1 exCanState exCanDrv).drv.numOfMsgs = 1)
    ∧ sendCountOf (canSend [1, 2] (fun _ => true) 5 exCanState exCanDrv).state "can0"
        (some 3) = some 2
    ∧ (sendCountOf (spiSend 1 1 [7] (fun _ => true) 4 exCanState exCanDrv).state "can0"
          (some 3) = some 0
      ∧ (spiSend 1 1 [7] (fun _ => true) 4 exCanState exCanDrv).drv.numOfMsgs = 0) := by
  refine ⟨⟨rfl, rfl, rfl, rfl, rfl⟩, ?_, ?_, ?_⟩
  · exact ((send_counter_increment_per_transport exCanState exCanDrv exCanCh 0 exCanInfo
      rfl rfl rfl rfl rfl).1 1 [42] (fun _ => true) 1).1 (by decide)
  · exact (((send_counter_increment_per_transport exCanState exCanDrv exCanCh 0 exCanInfo
      rfl rfl rfl rfl rfl).2.1 [1, 2] (fun _ => true) 5).1 (by decide)).1
  · exact ((send_counter_increment_per_transport exCanState exCanDrv exCanCh 0 exCanInfo
      rfl rfl rfl rfl rfl).2.2 1 1 [7] (fun _ => true) 4).2 (by decide)

end HardwareModel
